import Mathlib

/-!
Verification development for `ola_vlm/model/aux_heads/da_v2_head.py` (OLA-VLM).

The file shallowly embeds the depth-head module: tensors are a shape
(row-major) together with a total flat value function over the reals and an
autograd-tracking flag.  Every layer of the PyTorch module becomes a Lean
structure holding its learned parameters; forward passes of modules that own
batch-normalization state return the updated module alongside the output
tensor, mirroring the in-place update of `running_mean` / `running_var` /
`num_batches_tracked` that `nn.BatchNorm2d` performs in training mode.
Gradient mode is threaded as a boolean `g`: an operation's output carries
`reqGrad = true` only when gradient mode is enabled, matching autograd's rule
that `torch.no_grad()` suppresses graph construction.
-/

noncomputable section

/-- Dense multi-dimensional array: a shape together with a total row-major
flat value function and an autograd tracking flag.  Indices beyond the
shape's extent hold junk values that no well-formed consumer inspects. -/
structure Tensor where
  shape : List Nat
  data : Nat → ℝ
  reqGrad : Bool

/-- Size of dimension `i` (defaults to 1 beyond the rank). -/
def Tensor.dim (t : Tensor) (i : Nat) : Nat := t.shape.getD i 1

/-- Total number of elements. -/
def Tensor.numel (t : Tensor) : Nat := t.shape.prod

/-- Row-major element access for 4-D tensors. -/
def Tensor.at4 (t : Tensor) (b c h w : Nat) : ℝ :=
  t.data (((b * t.dim 1 + c) * t.dim 2 + h) * t.dim 3 + w)

/-- Zero-padded element access: spatial coordinates are taken in the padded
plane (`pd` extra rows/columns on each border), out-of-range reads give 0. -/
def Tensor.padAt (t : Tensor) (pd b c h w : Nat) : ℝ :=
  if pd ≤ h ∧ h < t.dim 2 + pd ∧ pd ≤ w ∧ w < t.dim 3 + pd then
    t.at4 b c (h - pd) (w - pd)
  else 0

/-- Parameters of `nn.Conv2d` with square kernel, as used throughout the
source file (`bias = none` models `bias=False`). -/
structure Conv2dParams where
  inC : Nat
  outC : Nat
  kernel : Nat
  stride : Nat
  padding : Nat
  weight : Nat → Nat → Nat → Nat → ℝ
  bias : Option (Nat → ℝ)

/-- Parameters of `nn.ConvTranspose2d` (square kernel, zero padding, with
bias, as constructed in `DPTHead.__init__`). -/
structure ConvTranspose2dParams where
  inC : Nat
  outC : Nat
  kernel : Nat
  stride : Nat
  weight : Nat → Nat → Nat → Nat → ℝ
  bias : Nat → ℝ

/-- Parameters of `nn.Linear` (with bias, the PyTorch default). -/
structure LinearParams where
  inF : Nat
  outF : Nat
  weight : Nat → Nat → ℝ
  bias : Nat → ℝ

/-- Output spatial extent of a strided convolution. -/
def convOutDim (k s pd n : Nat) : Nat := (n + 2 * pd - k) / s + 1

/-- Cross-correlation with bias, `nn.Conv2d`'s forward on a 4-D input. -/
def conv2d (g : Bool) (p : Conv2dParams) (t : Tensor) : Tensor :=
  let oh := convOutDim p.kernel p.stride p.padding (t.dim 2)
  let ow := convOutDim p.kernel p.stride p.padding (t.dim 3)
  { shape := [t.dim 0, p.outC, oh, ow]
    data := fun i =>
      let ox := i % ow
      let oy := i / ow % oh
      let oc := i / (ow * oh) % p.outC
      let ob := i / (ow * oh * p.outC)
      (match p.bias with | some f => f oc | none => 0) +
        ∑ ic ∈ Finset.range p.inC, ∑ kh ∈ Finset.range p.kernel,
          ∑ kw ∈ Finset.range p.kernel,
            p.weight oc ic kh kw *
              t.padAt p.padding ob ic (oy * p.stride + kh) (ox * p.stride + kw)
    reqGrad := g }

/-- Transposed convolution, `nn.ConvTranspose2d`'s forward (zero padding). -/
def convTranspose2d (g : Bool) (p : ConvTranspose2dParams) (t : Tensor) : Tensor :=
  let h := t.dim 2
  let w := t.dim 3
  let oh := (h - 1) * p.stride + p.kernel
  let ow := (w - 1) * p.stride + p.kernel
  { shape := [t.dim 0, p.outC, oh, ow]
    data := fun i =>
      let ox := i % ow
      let oy := i / ow % oh
      let oc := i / (ow * oh) % p.outC
      let ob := i / (ow * oh * p.outC)
      p.bias oc +
        ∑ ic ∈ Finset.range p.inC, ∑ ih ∈ Finset.range h, ∑ iw ∈ Finset.range w,
          ∑ kh ∈ Finset.range p.kernel, ∑ kw ∈ Finset.range p.kernel,
            if ih * p.stride + kh = oy ∧ iw * p.stride + kw = ox then
              p.weight ic oc kh kw * t.at4 ob ic ih iw
            else 0
    reqGrad := g }

/-- Affine map over the last dimension, `nn.Linear`'s forward. -/
def linearLayer (g : Bool) (p : LinearParams) (t : Tensor) : Tensor :=
  { shape := t.shape.dropLast ++ [p.outF]
    data := fun i =>
      let j := i % p.outF
      let r := i / p.outF
      p.bias j + ∑ k ∈ Finset.range p.inF, p.weight j k * t.data (r * p.inF + k)
    reqGrad := g }

/-- Pointwise application of an activation function passed as a module
argument (the source hands `nn.ReLU(False)` to the fusion blocks). -/
def mapAct (g : Bool) (f : ℝ → ℝ) (t : Tensor) : Tensor :=
  { shape := t.shape, data := fun i => f (t.data i), reqGrad := g && t.reqGrad }

/-- Rectified linear unit, `F.relu` / `nn.ReLU`. -/
def reluT (g : Bool) (t : Tensor) : Tensor :=
  { shape := t.shape, data := fun i => max (t.data i) 0, reqGrad := g && t.reqGrad }

/-- Gauss error function (Mathlib 4.14 does not provide it). -/
def erf (x : ℝ) : ℝ :=
  (2 / Real.sqrt Real.pi) * ∫ s in (0 : ℝ)..x, Real.exp (-(s ^ 2))

/-- Exact GELU, `nn.GELU`'s default forward. -/
def gelu (x : ℝ) : ℝ := x * (1 + erf (x / Real.sqrt 2)) / 2

/-- Pointwise GELU layer. -/
def geluT (g : Bool) (t : Tensor) : Tensor :=
  { shape := t.shape, data := fun i => gelu (t.data i), reqGrad := g && t.reqGrad }

/-- Elementwise addition (`skip_add.add`); operands share a shape at every
call site of the depth head, so broadcasting is not modelled. -/
def tAdd (g : Bool) (a b : Tensor) : Tensor :=
  { shape := a.shape
    data := fun i => a.data i + b.data i
    reqGrad := g && (a.reqGrad || b.reqGrad) }

/-- Axis permutation `(0, 2, 1)` of a 3-D tensor, `x.permute(0, 2, 1)`. -/
def permute021 (g : Bool) (t : Tensor) : Tensor :=
  let n := t.dim 1
  let c := t.dim 2
  { shape := [t.dim 0, c, n]
    data := fun i =>
      let ni := i % n
      let ci := i / n % c
      let bi := i / (n * c)
      t.data ((bi * n + ni) * c + ci)
    reqGrad := g && t.reqGrad }

/-- Reshape to a new shape; on this embedding's logical row-major layout the
flat value function is unchanged (`reshape` copies in logical order). -/
def reshapeT (g : Bool) (s : List Nat) (t : Tensor) : Tensor :=
  { shape := s, data := t.data, reqGrad := g && t.reqGrad }

/-- Drop dimension 1 when it is a singleton, `x.squeeze(1)`. -/
def squeeze1 (t : Tensor) : Tensor :=
  { shape := match t.shape with
      | b :: 1 :: rest => b :: rest
      | s => s
    data := t.data
    reqGrad := t.reqGrad }

/-- Insert a singleton dimension at position 1, `x[:, None]`. -/
def unsqueeze1 (t : Tensor) : Tensor :=
  { shape := match t.shape with
      | b :: rest => b :: 1 :: rest
      | [] => [1]
    data := t.data
    reqGrad := t.reqGrad }

/-- First element along the leading two dimensions, `x[0, 0]`; in row-major
layout this is an offset-zero view, so the flat data is unchanged. -/
def index00 (t : Tensor) : Tensor :=
  { shape := t.shape.drop 2, data := t.data, reqGrad := t.reqGrad }

/-- Concatenation of two 3-D tensors along the last axis,
`torch.cat((a, b), -1)`. -/
def cat3Last (g : Bool) (a b : Tensor) : Tensor :=
  let ca := a.dim 2
  let cb := b.dim 2
  { shape := [a.dim 0, a.dim 1, ca + cb]
    data := fun i =>
      let c := i % (ca + cb)
      let r := i / (ca + cb)
      if c < ca then a.data (r * ca + c) else b.data (r * cb + (c - ca))
    reqGrad := g && (a.reqGrad || b.reqGrad) }

/-- Broadcast of a `(batch, dim)` class token over the token axis of a 3-D
reference tensor, `cls_token.unsqueeze(1).expand_as(x)`. -/
def expandAs (g : Bool) (cls x : Tensor) : Tensor :=
  { shape := [x.dim 0, x.dim 1, x.dim 2]
    data := fun i =>
      let c := i % x.dim 2
      let b := i / (x.dim 2 * x.dim 1)
      cls.data (b * cls.dim 1 + c)
    reqGrad := g && cls.reqGrad }

/-- Source coordinate of bilinear interpolation for one axis. -/
def srcCoord (alignCorners : Bool) (inL outL o : Nat) : ℝ :=
  if alignCorners then
    if outL ≤ 1 then 0 else (o : ℝ) * ((inL : ℝ) - 1) / ((outL : ℝ) - 1)
  else
    max 0 (((o : ℝ) + 1 / 2) * ((inL : ℝ) / (outL : ℝ)) - 1 / 2)

/-- Bilinear spatial resizing of a 4-D tensor, `F.interpolate(...,
mode="bilinear")`.  Neighbour indices are clamped to the valid range, as in
the kernel; for align-corners source coordinates, which stay in range, the
clamp is inert. -/
def interpolate (g : Bool) (alignCorners : Bool) (oh ow : Nat) (t : Tensor) : Tensor :=
  let hIn := t.dim 2
  let wIn := t.dim 3
  { shape := [t.dim 0, t.dim 1, oh, ow]
    data := fun i =>
      let ox := i % ow
      let oy := i / ow % oh
      let c := i / (ow * oh) % t.dim 1
      let b := i / (ow * oh * t.dim 1)
      let sy := srcCoord alignCorners hIn oh oy
      let sx := srcCoord alignCorners wIn ow ox
      let y0 := min (Nat.floor sy) (hIn - 1)
      let y1 := min (y0 + 1) (hIn - 1)
      let x0 := min (Nat.floor sx) (wIn - 1)
      let x1 := min (x0 + 1) (wIn - 1)
      let wy := sy - (y0 : ℝ)
      let wx := sx - (x0 : ℝ)
      (1 - wy) * ((1 - wx) * t.at4 b c y0 x0 + wx * t.at4 b c y0 x1) +
        wy * ((1 - wx) * t.at4 b c y1 x0 + wx * t.at4 b c y1 x1)
    reqGrad := g && t.reqGrad }

/-- Plain numeric array as returned by `.cpu().numpy()`: a shape plus
materialized values (junk beyond the extent is truncated to 0), with no
gradient-tracking flag. -/
def NDArray : Type := List Nat × (Nat → ℝ)

/-- Materialization of a tensor into a plain numeric array. -/
def toNDArray (t : Tensor) : NDArray :=
  (t.shape, fun i => if i < t.numel then t.data i else 0)

/-- Numerical-stability constant of `nn.BatchNorm2d` (`eps = 1e-5`). -/
def bnEps : ℝ := 1 / 100000

/-- Running-statistics momentum of `nn.BatchNorm2d` (default `0.1`). -/
def bnMomentum : ℝ := 1 / 10

/-- State of an `nn.BatchNorm2d` module: the learned affine parameters and
the persistent running statistics that training-mode forwards update in
place. -/
structure BatchNorm2d where
  num_features : Nat
  weight : Nat → ℝ
  bias : Nat → ℝ
  running_mean : Nat → ℝ
  running_var : Nat → ℝ
  num_batches_tracked : Nat

/-- Per-channel batch mean over batch and spatial dimensions. -/
def batchMean (t : Tensor) (c : Nat) : ℝ :=
  (∑ b ∈ Finset.range (t.dim 0), ∑ h ∈ Finset.range (t.dim 2),
      ∑ w ∈ Finset.range (t.dim 3), t.at4 b c h w) /
    ((t.dim 0 * t.dim 2 * t.dim 3 : Nat) : ℝ)

/-- Per-channel biased batch variance (the normalizer used in training). -/
def batchVar (t : Tensor) (c : Nat) : ℝ :=
  (∑ b ∈ Finset.range (t.dim 0), ∑ h ∈ Finset.range (t.dim 2),
      ∑ w ∈ Finset.range (t.dim 3), (t.at4 b c h w - batchMean t c) ^ 2) /
    ((t.dim 0 * t.dim 2 * t.dim 3 : Nat) : ℝ)

/-- Per-channel unbiased batch variance (fed into the running average). -/
def batchVarUnbiased (t : Tensor) (c : Nat) : ℝ :=
  (∑ b ∈ Finset.range (t.dim 0), ∑ h ∈ Finset.range (t.dim 2),
      ∑ w ∈ Finset.range (t.dim 3), (t.at4 b c h w - batchMean t c) ^ 2) /
    ((t.dim 0 * t.dim 2 * t.dim 3 - 1 : Nat) : ℝ)

/-- Forward pass of `nn.BatchNorm2d`.  In training mode it normalizes by the
batch statistics and updates the persistent running statistics and batch
counter; in eval mode it normalizes by the stored running statistics and
leaves the module untouched. -/
def BatchNorm2d.forward (bn : BatchNorm2d) (training g : Bool) (t : Tensor) :
    Tensor × BatchNorm2d :=
  let chOf : Nat → Nat := fun i => i / (t.dim 3 * t.dim 2) % t.dim 1
  if training then
    ({ shape := t.shape
       data := fun i =>
         let c := chOf i
         bn.weight c * ((t.data i - batchMean t c) / Real.sqrt (batchVar t c + bnEps)) +
           bn.bias c
       reqGrad := g },
     { bn with
       running_mean := fun c =>
         (1 - bnMomentum) * bn.running_mean c + bnMomentum * batchMean t c
       running_var := fun c =>
         (1 - bnMomentum) * bn.running_var c + bnMomentum * batchVarUnbiased t c
       num_batches_tracked := bn.num_batches_tracked + 1 })
  else
    ({ shape := t.shape
       data := fun i =>
         let c := chOf i
         bn.weight c *
             ((t.data i - bn.running_mean c) / Real.sqrt (bn.running_var c + bnEps)) +
           bn.bias c
       reqGrad := g }, bn)

/-- Residual convolution module (`ResidualConvUnit`).  The activation is the
module handed to the constructor; the batch-norm submodules exist exactly
when the `bn` constructor flag was set, so they are optional fields. -/
structure ResidualConvUnit where
  conv1 : Conv2dParams
  conv2 : Conv2dParams
  bn1 : Option BatchNorm2d
  bn2 : Option BatchNorm2d
  activation : ℝ → ℝ

/-- Application of an optional batch-norm submodule, the
`if self.bn == True` branch of the residual unit's forward. -/
def bnOpt (ob : Option BatchNorm2d) (training g : Bool) (t : Tensor) :
    Tensor × Option BatchNorm2d :=
  match ob with
  | some b => let q := b.forward training g t; (q.1, some q.2)
  | none => (t, none)

/-- Forward pass of `ResidualConvUnit` (lines 61-84 of the source):
activation, conv1, optional bn1, activation, conv2, optional bn2, then the
residual addition with the input.  `groups` is fixed to 1 so the
`conv_merge` branch is dead code. -/
def ResidualConvUnit.forward (u : ResidualConvUnit) (training g : Bool)
    (x : Tensor) : Tensor × ResidualConvUnit :=
  let r1 := bnOpt u.bn1 training g (conv2d g u.conv1 (mapAct g u.activation x))
  let r2 := bnOpt u.bn2 training g (conv2d g u.conv2 (mapAct g u.activation r1.1))
  (tAdd g r2.1 x, { u with bn1 := r1.2, bn2 := r2.2 })

/-- Feature fusion block (`FeatureFusionBlock`).  `out_conv` is the 1x1
projection whose output width already reflects the `expand` option; `size`
is the optional fixed resize target from construction. -/
structure FeatureFusionBlock where
  align_corners : Bool
  out_conv : Conv2dParams
  resConfUnit1 : ResidualConvUnit
  resConfUnit2 : ResidualConvUnit
  size : Option (Nat × Nat)

/-- Resize-target precedence of `FeatureFusionBlock.forward` (lines
141-146): an explicit `size` argument wins, else the constructed `size`,
else double the current spatial extent. -/
def fusionTarget (m : FeatureFusionBlock) (sizeArg : Option (Nat × Nat))
    (h w : Nat) : Nat × Nat :=
  match sizeArg, m.size with
  | some s, _ => s
  | none, some s => s
  | none, none => (2 * h, 2 * w)

/-- Forward pass of `FeatureFusionBlock` (lines 127-152): optional skip via
`resConfUnit1` and residual addition, `resConfUnit2`, bilinear resize per
the target precedence, then the 1x1 output convolution. -/
def FeatureFusionBlock.forward (m : FeatureFusionBlock) (training g : Bool)
    (x : Tensor) (skip : Option Tensor) (sizeArg : Option (Nat × Nat)) :
    Tensor × FeatureFusionBlock :=
  let s1 := match skip with
    | some s =>
      let q := m.resConfUnit1.forward training g s
      (tAdd g x q.1, q.2)
    | none => (x, m.resConfUnit1)
  let s2 := m.resConfUnit2.forward training g s1.1
  let target := fusionTarget m sizeArg (s2.1.dim 2) (s2.1.dim 3)
  let out := conv2d g m.out_conv (interpolate g m.align_corners target.1 target.2 s2.1)
  (out, { m with resConfUnit1 := s1.2, resConfUnit2 := s2.2 })

/-- The `scratch` attribute bag assembled by `_make_scratch` and
`DPTHead.__init__`: per-scale channel-alignment convolutions, the four
fusion blocks, and the output head convolutions (`output_conv2` is the
Sequential conv-ReLU-conv-ReLU-Identity stack, whose two convolutions are
the fields `output_conv2a` and `output_conv2b`). -/
structure Scratch where
  layer1_rn : Conv2dParams
  layer2_rn : Conv2dParams
  layer3_rn : Conv2dParams
  layer4_rn : Conv2dParams
  refinenet1 : FeatureFusionBlock
  refinenet2 : FeatureFusionBlock
  refinenet3 : FeatureFusionBlock
  refinenet4 : FeatureFusionBlock
  output_conv1 : Conv2dParams
  output_conv2a : Conv2dParams
  output_conv2b : Conv2dParams

/-- Dense Prediction Transformer head (`DPTHead`).  The four entries of the
`projects` ModuleList are the fields `projects_1 .. projects_4`; the fixed
four-element `resize_layers` ModuleList is the 4x transposed convolution
`resize_layers_1`, the 2x transposed convolution `resize_layers_2`, an
`nn.Identity()` (no field needed), and the stride-2 convolution
`resize_layers_4`.  `readout_projects` exists exactly when `use_clstoken`
was set, so `use_clstoken` is its presence. -/
structure DPTHead where
  projects_1 : Conv2dParams
  projects_2 : Conv2dParams
  projects_3 : Conv2dParams
  projects_4 : Conv2dParams
  resize_layers_1 : ConvTranspose2dParams
  resize_layers_2 : ConvTranspose2dParams
  resize_layers_4 : Conv2dParams
  readout_projects :
    Option (LinearParams × LinearParams × LinearParams × LinearParams)
  scratch : Scratch

/-- The `use_clstoken` flag of `DPTHead`, identified with the presence of
the readout projections it gates. -/
def DPTHead.use_clstoken (m : DPTHead) : Bool := m.readout_projects.isSome

/-- Per-scale token preprocessing of `DPTHead.forward` (lines 262-270): the
optional class-token readout (broadcast, concatenate, Linear + GELU), then
`permute(0, 2, 1)` and the reshape onto the `(patch_h, patch_w)` grid.  A
missing class token with fusion enabled is an `x[1]` IndexError in Python;
this total embedding passes the tokens through on that dead branch and the
checked variant below rejects it. -/
def tokensToSpatial (g : Bool) (ro : Option LinearParams)
    (e : Tensor × Option Tensor) (ph pw : Nat) : Tensor :=
  let x := match ro, e.2 with
    | some r, some cls =>
      geluT g (linearLayer g r (cat3Last g e.1 (expandAs g cls e.1)))
    | _, _ => e.1
  reshapeT g [x.dim 0, x.dim 2, ph, pw] (permute021 g x)

/-- Junk tensor produced by control paths on which the Python code raises. -/
def junkTensor : Tensor := { shape := [], data := fun _ => 0, reqGrad := false }

/-- Per-scale branch of the loop in `DPTHead.forward` (lines 262-275):
readout/reshape, the scale's 1x1 projection, then the scale's resize
operator.  Indices beyond 3 correspond to a ModuleList `IndexError`. -/
def DPTHead.scaleOut (m : DPTHead) (g : Bool) (i : Nat)
    (e : Tensor × Option Tensor) (ph pw : Nat) : Tensor :=
  match i with
  | 0 => convTranspose2d g m.resize_layers_1
      (conv2d g m.projects_1
        (tokensToSpatial g (m.readout_projects.map fun r => r.1) e ph pw))
  | 1 => convTranspose2d g m.resize_layers_2
      (conv2d g m.projects_2
        (tokensToSpatial g (m.readout_projects.map fun r => r.2.1) e ph pw))
  | 2 => conv2d g m.projects_3
      (tokensToSpatial g (m.readout_projects.map fun r => r.2.2.1) e ph pw)
  | 3 => conv2d g m.resize_layers_4
      (conv2d g m.projects_4
        (tokensToSpatial g (m.readout_projects.map fun r => r.2.2.2) e ph pw))
  | _ => junkTensor

/-- The list `out` built by the loop of `DPTHead.forward`. -/
def DPTHead.scalesList (m : DPTHead) (g : Bool) (ph pw : Nat) :
    Nat → List (Tensor × Option Tensor) → List Tensor
  | _, [] => []
  | i, e :: rest => m.scaleOut g i e ph pw :: m.scalesList g ph pw (i + 1) rest

/-- Channel-aligned maps `layer_1_rn .. layer_4_rn` (lines 279-282). -/
def DPTHead.layersRn (m : DPTHead) (g : Bool) (l1 l2 l3 l4 : Tensor) :
    Tensor × Tensor × Tensor × Tensor :=
  (conv2d g m.scratch.layer1_rn l1, conv2d g m.scratch.layer2_rn l2,
   conv2d g m.scratch.layer3_rn l3, conv2d g m.scratch.layer4_rn l4)

/-- Four-stage fusion cascade of `DPTHead.forward` (lines 284-287), with the
updated fusion blocks `(refinenet1', refinenet2', refinenet3',
refinenet4')` returned alongside `path_1`. -/
def DPTHead.fused (m : DPTHead) (training g : Bool) (l1 l2 l3 l4 : Tensor) :
    Tensor × FeatureFusionBlock × FeatureFusionBlock × FeatureFusionBlock ×
      FeatureFusionBlock :=
  let p4 := m.scratch.refinenet4.forward training g l4 none (some (l3.dim 2, l3.dim 3))
  let p3 := m.scratch.refinenet3.forward training g p4.1 (some l3)
    (some (l2.dim 2, l2.dim 3))
  let p2 := m.scratch.refinenet2.forward training g p3.1 (some l2)
    (some (l1.dim 2, l1.dim 3))
  let p1 := m.scratch.refinenet1.forward training g p2.1 (some l1) none
  (p1.1, p1.2, p2.2, p3.2, p4.2)

/-- Output head of `DPTHead.forward` (lines 289-291): `output_conv1`,
bilinear upsample to exactly 14x the patch grid, then the
conv-ReLU-conv-ReLU-Identity stack `output_conv2`. -/
def DPTHead.headOut (m : DPTHead) (g : Bool) (path1 : Tensor) (ph pw : Nat) :
    Tensor :=
  let o := interpolate g true (14 * ph) (14 * pw) (conv2d g m.scratch.output_conv1 path1)
  reluT g (conv2d g m.scratch.output_conv2b (reluT g (conv2d g m.scratch.output_conv2a o)))

/-- Forward pass of `DPTHead` (lines 260-293).  A feature list that does not
unpack into exactly four scales raises in Python; that control path yields a
junk tensor here and is excluded by the checked variant below. -/
def DPTHead.forward (m : DPTHead) (training g : Bool)
    (out_features : List (Tensor × Option Tensor)) (ph pw : Nat) :
    Tensor × DPTHead :=
  match m.scalesList g ph pw 0 out_features with
  | [layer_1, layer_2, layer_3, layer_4] =>
    let rn := m.layersRn g layer_1 layer_2 layer_3 layer_4
    let fz := m.fused training g rn.1 rn.2.1 rn.2.2.1 rn.2.2.2
    (m.headOut g fz.1 ph pw,
     { m with scratch := { m.scratch with
         refinenet1 := fz.2.1, refinenet2 := fz.2.2.1,
         refinenet3 := fz.2.2.2.1, refinenet4 := fz.2.2.2.2 } })
  | _ => (junkTensor, m)

/-- Encoder variants recognized by `DAv2_Head.__init__`. -/
inductive Encoder where
  | vits | vitb | vitl | vitg

/-- The `embd_dims` table of `DAv2_Head.__init__`: every encoder variant is
mapped to embedding width 1024. -/
def embd_dims : Encoder → Nat := fun _ => 1024

/-- Depth head wrapper (`DAv2_Head`): owns the `DPTHead`. -/
structure DAv2_Head where
  depth_head : DPTHead

/-- Forward pass of `DAv2_Head` (lines 316-321): fixes the patch grid to
`336 // 14 = 24`, applies the DPT head, rectifies with `F.relu` and drops
the singleton channel axis. -/
def DAv2_Head.forward (m : DAv2_Head) (training g : Bool)
    (features : List (Tensor × Option Tensor)) : Tensor × DAv2_Head :=
  let r := m.depth_head.forward training g features (336 / 14) (336 / 14)
  (squeeze1 (reluT g r.1), { depth_head := r.2 })

/-- Inference entry point `DAv2_Head.infer_feats` (lines 323-329).  The
`@torch.no_grad()` decorator makes the wrapped forward run with gradient
mode off (`g = false`); the depth map is resized bilinearly to the
requested image size, the first batch element is taken with `[0, 0]`, and
the result is materialized as a plain numeric array. -/
def DAv2_Head.infer_feats (m : DAv2_Head) (training : Bool)
    (feats : List (Tensor × Option Tensor)) (image_size : Nat × Nat) :
    NDArray × DAv2_Head :=
  let r := m.forward training false feats
  let t := interpolate false true image_size.1 image_size.2 (unsqueeze1 r.1)
  (toNDArray (index00 t), r.2)

/-- Two-layer perceptron produced by `build_mlp`: Linear, ReLU, Linear. -/
structure MLP2 where
  fc1 : LinearParams
  fc2 : LinearParams

/-- Forward pass of a `build_mlp` Sequential. -/
def MLP2.apply (m : MLP2) (g : Bool) (x : Tensor) : Tensor :=
  linearLayer g m.fc2 (reluT g (linearLayer g m.fc1 x))

/-- Three-layer perceptron produced by `build_expand_mlp`:
Linear, ReLU, Linear, ReLU, Linear (unused by the heads modelled here). -/
structure MLP3 where
  fc1 : LinearParams
  fc2 : LinearParams
  fc3 : LinearParams

/-- Forward pass of a `build_expand_mlp` Sequential. -/
def MLP3.apply (m : MLP3) (g : Bool) (x : Tensor) : Tensor :=
  linearLayer g m.fc3 (reluT g (linearLayer g m.fc2 (reluT g (linearLayer g m.fc1 x))))

/-- Plain MLP projection variant (`DepthProbeHead`): four independent
2-layer perceptrons over the language hidden states. -/
structure DepthProbeHead where
  linear_1 : MLP2
  linear_2 : MLP2
  linear_3 : MLP2
  linear_4 : MLP2

/-- Forward pass of `DepthProbeHead` (lines 367-375).  Exactly as in the
source, the first perceptron is applied twice (entries 0 and 1), the second
and third perceptrons produce entries 2 and 3, and `linear_4` is never
used. -/
def DepthProbeHead.forward (m : DepthProbeHead) (g : Bool) (llm_feats : Tensor) :
    List (Tensor × Option Tensor) :=
  [(m.linear_1.apply g llm_feats, none),
   (m.linear_1.apply g llm_feats, none),
   (m.linear_2.apply g llm_feats, none),
   (m.linear_3.apply g llm_feats, none)]

/-- Modelled from the spec: the attention-based `Resampler` imported from
`ola_vlm/model/multimodal_projector/resampler.py` is an external
collaborator whose internals are out of scope (spec section 4.6 treats its
attention pooling as already specified); it is kept as an abstract tensor
transformation. -/
def ResamplerFn : Type := Tensor → Tensor

/-- Resampler-based projection variant (`DepthHead`).  The three auxiliary
perceptrons exist exactly when `use_intermediate_depth` was set, so they
are one optional field. -/
structure DepthHead where
  projector : ResamplerFn
  intermediate_mlps : Option (MLP2 × MLP2 × MLP2)

/-- The `use_intermediate_depth` flag of `DepthHead`, identified with the
presence of the auxiliary perceptrons it gates. -/
def DepthHead.use_intermediate_depth (m : DepthHead) : Bool :=
  m.intermediate_mlps.isSome

/-- Forward pass of `DepthHead` (lines 404-416): resample, optionally emit
the three auxiliary features, then append the primary resampled output. -/
def DepthHead.forward (m : DepthHead) (g : Bool) (llm_feats : Tensor) :
    List (Tensor × Option Tensor) :=
  let visual_feats := m.projector llm_feats
  (match m.intermediate_mlps with
    | some mls =>
      [(mls.1.apply g visual_feats, none),
       (mls.2.1.apply g visual_feats, none),
       (mls.2.2.apply g visual_feats, none)]
    | none => []) ++ [(visual_feats, none)]

/-- Modelled from the spec: the `TaskTokenResampler` external collaborator,
which additionally consumes latent task tokens. -/
def TaskResamplerFn : Type := Tensor → Tensor → Tensor

/-- Task-token resampler variant (`TaskTokenDepthHead`). -/
structure TaskTokenDepthHead where
  projector : TaskResamplerFn
  intermediate_mlps : Option (MLP2 × MLP2 × MLP2)

/-- Forward pass of `TaskTokenDepthHead` (lines 444-456). -/
def TaskTokenDepthHead.forward (m : TaskTokenDepthHead) (g : Bool)
    (llm_feats latents : Tensor) : List (Tensor × Option Tensor) :=
  let visual_feats := m.projector llm_feats latents
  (match m.intermediate_mlps with
    | some mls =>
      [(mls.1.apply g visual_feats, none),
       (mls.2.1.apply g visual_feats, none),
       (mls.2.2.apply g visual_feats, none)]
    | none => []) ++ [(visual_feats, none)]

/-- Spec-side fusion cascade, following the words of spec section 4.4: stage
4 consumes only the scale-3 aligned map resized to the scale-2 map's spatial
size; stage 3 consumes stage 4's output with the scale-2 map as skip,
resized to the scale-1 map's size; stage 2 analogously targets the scale-0
map's size; stage 1 consumes stage 2's output with the scale-0 map as skip
and no explicit size (default upsampling). -/
def specFusionCascade (training g : Bool)
    (r4 r3 r2 r1 : FeatureFusionBlock) (l1 l2 l3 l4 : Tensor) : Tensor :=
  let s4 := (r4.forward training g l4 none (some (l3.dim 2, l3.dim 3))).1
  let s3 := (r3.forward training g s4 (some l3) (some (l2.dim 2, l2.dim 3))).1
  let s2 := (r2.forward training g s3 (some l2) (some (l1.dim 2, l1.dim 3))).1
  (r1.forward training g s2 (some l1) none).1

/-- Checked `nn.Conv2d`: PyTorch rejects inputs that are not 4-D, whose
channel count differs from the declared `in_channels`, or whose padded
spatial extent is smaller than the kernel (output size would be
non-positive). -/
def conv2dE (g : Bool) (p : Conv2dParams) (t : Tensor) : Option Tensor :=
  if t.shape.length = 4 ∧ t.dim 1 = p.inC ∧ p.kernel ≤ t.dim 2 + 2 * p.padding ∧
      p.kernel ≤ t.dim 3 + 2 * p.padding then
    some (conv2d g p t)
  else none

/-- Checked `nn.ConvTranspose2d`: requires a 4-D input with matching
channels and non-empty spatial extent. -/
def convTranspose2dE (g : Bool) (p : ConvTranspose2dParams) (t : Tensor) :
    Option Tensor :=
  if t.shape.length = 4 ∧ t.dim 1 = p.inC ∧ 1 ≤ t.dim 2 ∧ 1 ≤ t.dim 3 then
    some (convTranspose2d g p t)
  else none

/-- Checked `nn.Linear`: the trailing dimension must equal `in_features`. -/
def linearE (g : Bool) (p : LinearParams) (t : Tensor) : Option Tensor :=
  if t.shape.getLast? = some p.inF then some (linearLayer g p t) else none

/-- Checked elementwise addition: operands must share a shape (the depth
head never exercises broadcasting, which is therefore not modelled). -/
def tAddE (g : Bool) (a b : Tensor) : Option Tensor :=
  if a.shape = b.shape then some (tAdd g a b) else none

/-- Checked `permute(0, 2, 1)`: requires a 3-D input. -/
def permute021E (g : Bool) (t : Tensor) : Option Tensor :=
  if t.shape.length = 3 then some (permute021 g t) else none

/-- Checked `reshape`: the element counts must agree. -/
def reshapeE (g : Bool) (s : List Nat) (t : Tensor) : Option Tensor :=
  if t.numel = s.prod then some (reshapeT g s t) else none

/-- Checked bilinear `F.interpolate`: 4-D input, positive target size. -/
def interpolateE (g alignCorners : Bool) (oh ow : Nat) (t : Tensor) :
    Option Tensor :=
  if t.shape.length = 4 ∧ 1 ≤ oh ∧ 1 ≤ ow then
    some (interpolate g alignCorners oh ow t)
  else none

/-- Checked class-token broadcast: the class token must be `(batch, dim)`
for the token tensor's batch and embedding dim. -/
def expandAsE (g : Bool) (cls x : Tensor) : Option Tensor :=
  if cls.shape = [x.dim 0, x.dim 2] then some (expandAs g cls x) else none

/-- Checked concatenation along the last axis of two 3-D tensors. -/
def cat3LastE (g : Bool) (a b : Tensor) : Option Tensor :=
  if a.shape.length = 3 ∧ b.shape.length = 3 ∧ a.dim 0 = b.dim 0 ∧
      a.dim 1 = b.dim 1 then
    some (cat3Last g a b)
  else none

/-- Checked `nn.BatchNorm2d` forward: 4-D input whose channel count matches
`num_features`; training mode additionally requires more than one value per
channel. -/
def BatchNorm2d.forwardE (bn : BatchNorm2d) (training g : Bool) (t : Tensor) :
    Option Tensor :=
  if t.shape.length = 4 ∧ t.dim 1 = bn.num_features ∧
      (training = true → 1 < t.dim 0 * t.dim 2 * t.dim 3) then
    some (bn.forward training g t).1
  else none

/-- Checked application of an optional batch-norm submodule. -/
def bnOptE (ob : Option BatchNorm2d) (training g : Bool) (t : Tensor) :
    Option Tensor :=
  match ob with
  | some b => b.forwardE training g t
  | none => some t

/-- Checked forward pass of `ResidualConvUnit`. -/
def ResidualConvUnit.forwardE (u : ResidualConvUnit) (training g : Bool)
    (x : Tensor) : Option Tensor := do
  let o1 ← conv2dE g u.conv1 (mapAct g u.activation x)
  let o2 ← bnOptE u.bn1 training g o1
  let o3 ← conv2dE g u.conv2 (mapAct g u.activation o2)
  let o4 ← bnOptE u.bn2 training g o3
  tAddE g o4 x

/-- Checked forward pass of `FeatureFusionBlock`. -/
def FeatureFusionBlock.forwardE (m : FeatureFusionBlock) (training g : Bool)
    (x : Tensor) (skip : Option Tensor) (sizeArg : Option (Nat × Nat)) :
    Option Tensor := do
  let s1 ← match skip with
    | some s => do
      let res ← m.resConfUnit1.forwardE training g s
      tAddE g x res
    | none => some x
  let s2 ← m.resConfUnit2.forwardE training g s1
  let target := fusionTarget m sizeArg (s2.dim 2) (s2.dim 3)
  let o ← interpolateE g m.align_corners target.1 target.2 s2
  conv2dE g m.out_conv o

/-- Checked per-scale token preprocessing; with class-token fusion enabled a
missing class token corresponds to the `x[1]` IndexError. -/
def tokensToSpatialE (g : Bool) (ro : Option LinearParams)
    (e : Tensor × Option Tensor) (ph pw : Nat) : Option Tensor := do
  let x ← match ro, e.2 with
    | some r, some cls => do
      let rd ← expandAsE g cls e.1
      let cc ← cat3LastE g e.1 rd
      let ln ← linearE g r cc
      some (geluT g ln)
    | some _, none => none
    | none, _ => some e.1
  let xp ← permute021E g x
  reshapeE g [x.dim 0, x.dim 2, ph, pw] xp

/-- Checked per-scale branch of the `DPTHead.forward` loop; an index beyond
the four ModuleList entries is the Python IndexError. -/
def DPTHead.scaleOutE (m : DPTHead) (g : Bool) (i : Nat)
    (e : Tensor × Option Tensor) (ph pw : Nat) : Option Tensor :=
  match i with
  | 0 => do
    let x ← tokensToSpatialE g (m.readout_projects.map fun r => r.1) e ph pw
    let y ← conv2dE g m.projects_1 x
    convTranspose2dE g m.resize_layers_1 y
  | 1 => do
    let x ← tokensToSpatialE g (m.readout_projects.map fun r => r.2.1) e ph pw
    let y ← conv2dE g m.projects_2 x
    convTranspose2dE g m.resize_layers_2 y
  | 2 => do
    let x ← tokensToSpatialE g (m.readout_projects.map fun r => r.2.2.1) e ph pw
    conv2dE g m.projects_3 x
  | 3 => do
    let x ← tokensToSpatialE g (m.readout_projects.map fun r => r.2.2.2) e ph pw
    let y ← conv2dE g m.projects_4 x
    conv2dE g m.resize_layers_4 y
  | _ => none

/-- Checked loop of `DPTHead.forward`: every scale must preprocess without a
shape error. -/
def DPTHead.scalesListE (m : DPTHead) (g : Bool) (ph pw : Nat) :
    Nat → List (Tensor × Option Tensor) → Option (List Tensor)
  | _, [] => some []
  | i, e :: rest => do
    let t ← m.scaleOutE g i e ph pw
    let ts ← m.scalesListE g ph pw (i + 1) rest
    some (t :: ts)

/-- Checked forward pass of `DPTHead`: `none` exactly on the inputs on which
the Python forward raises (shape errors are fatal and produce no partial
output).  Only the output tensor is returned; the state threading is
irrelevant to the failure behaviour. -/
def DPTHead.forwardE (m : DPTHead) (training g : Bool)
    (out_features : List (Tensor × Option Tensor)) (ph pw : Nat) :
    Option Tensor := do
  let outs ← m.scalesListE g ph pw 0 out_features
  match outs with
  | [layer_1, layer_2, layer_3, layer_4] => do
    let l1 ← conv2dE g m.scratch.layer1_rn layer_1
    let l2 ← conv2dE g m.scratch.layer2_rn layer_2
    let l3 ← conv2dE g m.scratch.layer3_rn layer_3
    let l4 ← conv2dE g m.scratch.layer4_rn layer_4
    let p4 ← m.scratch.refinenet4.forwardE training g l4 none
      (some (l3.dim 2, l3.dim 3))
    let p3 ← m.scratch.refinenet3.forwardE training g p4 (some l3)
      (some (l2.dim 2, l2.dim 3))
    let p2 ← m.scratch.refinenet2.forwardE training g p3 (some l2)
      (some (l1.dim 2, l1.dim 3))
    let p1 ← m.scratch.refinenet1.forwardE training g p2 (some l1) none
    let o1 ← conv2dE g m.scratch.output_conv1 p1
    let o2 ← interpolateE g true (14 * ph) (14 * pw) o1
    let o3 ← conv2dE g m.scratch.output_conv2a o2
    let o5 ← conv2dE g m.scratch.output_conv2b (reluT g o3)
    some (reluT g o5)
  | _ => none

/-- Shape-relevant configuration of a convolution as fixed at construction
time (`in_channels`, `out_channels`, `kernel_size`, `stride`, `padding`). -/
def Conv2dParams.cfg (p : Conv2dParams) (ic oc k s pd : Nat) : Prop :=
  p.inC = ic ∧ p.outC = oc ∧ p.kernel = k ∧ p.stride = s ∧ p.padding = pd

/-- Shape-relevant configuration of a transposed convolution. -/
def ConvTranspose2dParams.cfg (p : ConvTranspose2dParams) (ic oc k s : Nat) :
    Prop :=
  p.inC = ic ∧ p.outC = oc ∧ p.kernel = k ∧ p.stride = s

/-- Configuration facts `ResidualConvUnit.__init__` guarantees for feature
width `f`: both convolutions are 3x3, stride 1, padding 1, `f → f`, and any
batch-norm submodules carry `f` features. -/
def ResidualConvUnit.cfg (u : ResidualConvUnit) (f : Nat) : Prop :=
  u.conv1.cfg f f 3 1 1 ∧ u.conv2.cfg f f 3 1 1 ∧
  (∀ b ∈ u.bn1, b.num_features = f) ∧ (∀ b ∈ u.bn2, b.num_features = f)

/-- Configuration facts `_make_fusion_block` guarantees for feature width
`f`: 1x1 output convolution `f → f` (`expand=False`), aligned corners, no
fixed size, and two residual units of width `f`. -/
def FeatureFusionBlock.cfg (m : FeatureFusionBlock) (f : Nat) : Prop :=
  m.out_conv.cfg f f 1 1 0 ∧ m.resConfUnit1.cfg f ∧ m.resConfUnit2.cfg f ∧
  m.size = none ∧ m.align_corners = true

/-- Configuration facts `_make_scratch` and `DPTHead.__init__` guarantee
for the scratch bag at fusion width `f` and the standard channel list
`[256, 512, 1024, 1024]`. -/
def Scratch.cfg (s : Scratch) (f : Nat) : Prop :=
  s.layer1_rn.cfg 256 f 3 1 1 ∧ s.layer2_rn.cfg 512 f 3 1 1 ∧
  s.layer3_rn.cfg 1024 f 3 1 1 ∧ s.layer4_rn.cfg 1024 f 3 1 1 ∧
  s.refinenet1.cfg f ∧ s.refinenet2.cfg f ∧ s.refinenet3.cfg f ∧
  s.refinenet4.cfg f ∧
  s.output_conv1.cfg f (f / 2) 3 1 1 ∧ s.output_conv2a.cfg (f / 2) 32 3 1 1 ∧
  s.output_conv2b.cfg 32 1 1 1 0

/-- Configuration facts `DPTHead.__init__` guarantees with
`in_channels = 1024` (every encoder's embedding width) and the standard
`out_channels = [256, 512, 1024, 1024]`: per-scale 1x1 projections, the
fixed resize operators (4x up, 2x up, identity, stride-2 down), the scratch
configuration, and readout projections `2*1024 → 1024` when present. -/
def DPTHead.cfgStd (m : DPTHead) (f : Nat) : Prop :=
  m.projects_1.cfg 1024 256 1 1 0 ∧ m.projects_2.cfg 1024 512 1 1 0 ∧
  m.projects_3.cfg 1024 1024 1 1 0 ∧ m.projects_4.cfg 1024 1024 1 1 0 ∧
  m.resize_layers_1.cfg 256 256 4 4 ∧ m.resize_layers_2.cfg 512 512 2 2 ∧
  m.resize_layers_4.cfg 1024 1024 3 2 1 ∧
  m.scratch.cfg f ∧
  (∀ r ∈ m.readout_projects,
    (r.1.inF = 2048 ∧ r.1.outF = 1024) ∧ (r.2.1.inF = 2048 ∧ r.2.1.outF = 1024) ∧
    (r.2.2.1.inF = 2048 ∧ r.2.2.1.outF = 1024) ∧
    (r.2.2.2.inF = 2048 ∧ r.2.2.2.outF = 1024))

/-- Concrete convolution parameters with zero weights and a zero bias. -/
def zeroConv (ic oc k s pd : Nat) : Conv2dParams :=
  ⟨ic, oc, k, s, pd, fun _ _ _ _ => 0, some fun _ => 0⟩

/-- Concrete bias-free convolution parameters with zero weights. -/
def zeroConvNB (ic oc k s pd : Nat) : Conv2dParams :=
  ⟨ic, oc, k, s, pd, fun _ _ _ _ => 0, none⟩

/-- Concrete transposed-convolution parameters with zero weights. -/
def zeroConvT (ic oc k s : Nat) : ConvTranspose2dParams :=
  ⟨ic, oc, k, s, fun _ _ _ _ => 0, fun _ => 0⟩

/-- Concrete linear parameters with zero weights. -/
def zeroLinear (i o : Nat) : LinearParams := ⟨i, o, fun _ _ => 0, fun _ => 0⟩

/-- Freshly initialized `nn.BatchNorm2d` state: unit scale, zero shift,
zero running mean, unit running variance, zero batch counter. -/
def freshBN (f : Nat) : BatchNorm2d :=
  ⟨f, fun _ => 1, fun _ => 0, fun _ => 0, fun _ => 1, 0⟩

/-- Concrete residual convolution unit (ReLU activation, zero weights). -/
def zeroRCU (f : Nat) (bn : Bool) : ResidualConvUnit :=
  ⟨zeroConv f f 3 1 1, zeroConv f f 3 1 1,
   if bn then some (freshBN f) else none,
   if bn then some (freshBN f) else none, fun x => max x 0⟩

/-- Concrete feature fusion block as `_make_fusion_block` builds it. -/
def zeroFFB (f : Nat) (bn : Bool) : FeatureFusionBlock :=
  ⟨true, zeroConv f f 1 1 0, zeroRCU f bn, zeroRCU f bn, none⟩

/-- Concrete scratch bag for fusion width `f`. -/
def zeroScratch (f : Nat) (bn : Bool) : Scratch :=
  ⟨zeroConvNB 256 f 3 1 1, zeroConvNB 512 f 3 1 1, zeroConvNB 1024 f 3 1 1,
   zeroConvNB 1024 f 3 1 1, zeroFFB f bn, zeroFFB f bn, zeroFFB f bn,
   zeroFFB f bn, zeroConv f (f / 2) 3 1 1, zeroConv (f / 2) 32 3 1 1,
   zeroConv 32 1 1 1 0⟩

/-- Concrete `DPTHead` at the default configuration (no class token). -/
def zeroDPT (f : Nat) (bn : Bool) : DPTHead :=
  ⟨zeroConv 1024 256 1 1 0, zeroConv 1024 512 1 1 0, zeroConv 1024 1024 1 1 0,
   zeroConv 1024 1024 1 1 0, zeroConvT 256 256 4 4, zeroConvT 512 512 2 2,
   zeroConv 1024 1024 3 2 1, none, zeroScratch f bn⟩

/-- Concrete depth head wrapper. -/
def zeroDAv2 (bn : Bool) : DAv2_Head := ⟨zeroDPT 256 bn⟩

/-- Concrete backbone entry: zero tokens on a `(B, 576, 1024)` grid. -/
def zeroEntry (B : Nat) : Tensor × Option Tensor :=
  (⟨[B, 576, 1024], fun _ => 0, false⟩, none)

/-- Concrete four-scale backbone input. -/
def zeroFeats (B : Nat) : List (Tensor × Option Tensor) :=
  [zeroEntry B, zeroEntry B, zeroEntry B, zeroEntry B]

/-- The concrete `DPTHead` satisfies the construction facts. -/
lemma zeroDPT_cfgStd (f : Nat) (bn : Bool) : (zeroDPT f bn).cfgStd f := by
  cases bn <;>
    simp [DPTHead.cfgStd, Scratch.cfg, FeatureFusionBlock.cfg,
      ResidualConvUnit.cfg, Conv2dParams.cfg, ConvTranspose2dParams.cfg,
      zeroDPT, zeroScratch, zeroFFB, zeroRCU, zeroConv, zeroConvNB, zeroConvT,
      freshBN]

@[simp] lemma reluT_shape (g : Bool) (t : Tensor) : (reluT g t).shape = t.shape := rfl

@[simp] lemma mapAct_shape (g : Bool) (f : ℝ → ℝ) (t : Tensor) :
    (mapAct g f t).shape = t.shape := rfl

@[simp] lemma geluT_shape (g : Bool) (t : Tensor) : (geluT g t).shape = t.shape := rfl

@[simp] lemma tAdd_shape (g : Bool) (a b : Tensor) : (tAdd g a b).shape = a.shape := rfl

@[simp] lemma linearLayer_shape (g : Bool) (p : LinearParams) (t : Tensor) :
    (linearLayer g p t).shape = t.shape.dropLast ++ [p.outF] := rfl

@[simp] lemma reshapeT_shape (g : Bool) (s : List Nat) (t : Tensor) :
    (reshapeT g s t).shape = s := rfl

@[simp] lemma interpolate_shape (g ac : Bool) (oh ow : Nat) (t : Tensor) :
    (interpolate g ac oh ow t).shape = [t.dim 0, t.dim 1, oh, ow] := rfl

@[simp] lemma cat3Last_shape (g : Bool) (a b : Tensor) :
    (cat3Last g a b).shape = [a.dim 0, a.dim 1, a.dim 2 + b.dim 2] := rfl

@[simp] lemma expandAs_shape (g : Bool) (cls x : Tensor) :
    (expandAs g cls x).shape = [x.dim 0, x.dim 1, x.dim 2] := rfl

@[simp] lemma permute021_shape (g : Bool) (t : Tensor) :
    (permute021 g t).shape = [t.dim 0, t.dim 2, t.dim 1] := rfl

lemma conv2d_shape (g : Bool) (p : Conv2dParams) {t : Tensor} {b c h w : Nat}
    (ht : t.shape = [b, c, h, w]) :
    (conv2d g p t).shape =
      [b, p.outC, convOutDim p.kernel p.stride p.padding h,
        convOutDim p.kernel p.stride p.padding w] := by
  simp [conv2d, Tensor.dim, ht]

lemma convTranspose2d_shape (g : Bool) (p : ConvTranspose2dParams)
    {t : Tensor} {b c h w : Nat} (ht : t.shape = [b, c, h, w]) :
    (convTranspose2d g p t).shape =
      [b, p.outC, (h - 1) * p.stride + p.kernel, (w - 1) * p.stride + p.kernel] := by
  simp [convTranspose2d, Tensor.dim, ht]

lemma convOutDim_3_1_1 {n : Nat} (h : 1 ≤ n) : convOutDim 3 1 1 n = n := by
  unfold convOutDim; omega

lemma convOutDim_1_1_0 {n : Nat} (h : 1 ≤ n) : convOutDim 1 1 0 n = n := by
  unfold convOutDim; omega

lemma bn_forward_shape (bn : BatchNorm2d) (tr g : Bool) (t : Tensor) :
    ((bn.forward tr g t).1).shape = t.shape := by
  cases tr <;> simp [BatchNorm2d.forward]

lemma bnOpt_fst_shape (ob : Option BatchNorm2d) (tr g : Bool) (t : Tensor) :
    ((bnOpt ob tr g t).1).shape = t.shape := by
  cases ob <;> simp [bnOpt, bn_forward_shape]

lemma rcu_forward_shape {u : ResidualConvUnit} {f : Nat} (hcfg : u.cfg f)
    (tr g : Bool) {x : Tensor} {b h w : Nat} (hx : x.shape = [b, f, h, w])
    (hh : 1 ≤ h) (hw : 1 ≤ w) :
    (u.forward tr g x).1.shape = [b, f, h, w] := by
  obtain ⟨hc1, hc2, -, -⟩ := hcfg
  have hm : (mapAct g u.activation x).shape = [b, f, h, w] := by simp [hx]
  have h1 : (conv2d g u.conv1 (mapAct g u.activation x)).shape = [b, f, h, w] := by
    rw [conv2d_shape g u.conv1 hm, hc1.2.1, hc1.2.2.1, hc1.2.2.2.1, hc1.2.2.2.2,
      convOutDim_3_1_1 hh, convOutDim_3_1_1 hw]
  have h2 :
      ((bnOpt u.bn1 tr g (conv2d g u.conv1 (mapAct g u.activation x))).1).shape =
        [b, f, h, w] := by rw [bnOpt_fst_shape, h1]
  have h3 :
      (conv2d g u.conv2 (mapAct g u.activation
        (bnOpt u.bn1 tr g (conv2d g u.conv1 (mapAct g u.activation x))).1)).shape =
        [b, f, h, w] := by
    rw [conv2d_shape g u.conv2 (by simpa using h2), hc2.2.1, hc2.2.2.1,
      hc2.2.2.2.1, hc2.2.2.2.2, convOutDim_3_1_1 hh, convOutDim_3_1_1 hw]
  simp only [ResidualConvUnit.forward, tAdd_shape, bnOpt_fst_shape]
  exact h3

lemma ffb_forward_shape {m : FeatureFusionBlock} (tr g : Bool)
    {x : Tensor} (skip : Option Tensor) (sizeArg : Option (Nat × Nat))
    {b c h w : Nat} (ht : x.shape = [b, c, h, w])
    (hrcu : m.resConfUnit2.cfg c)
    (hk : m.out_conv.kernel = 1) (hs : m.out_conv.stride = 1)
    (hp : m.out_conv.padding = 0) (hh : 1 ≤ h) (hw : 1 ≤ w)
    (hth : 1 ≤ (fusionTarget m sizeArg h w).1)
    (htw : 1 ≤ (fusionTarget m sizeArg h w).2) :
    (m.forward tr g x skip sizeArg).1.shape =
      [b, m.out_conv.outC, (fusionTarget m sizeArg h w).1,
        (fusionTarget m sizeArg h w).2] := by
  have hs1 :
      (match skip with
        | some s =>
          let q := m.resConfUnit1.forward tr g s
          (tAdd g x q.1, q.2)
        | none => (x, m.resConfUnit1)).1.shape = [b, c, h, w] := by
    cases skip <;> simp [ht]
  simp only [FeatureFusionBlock.forward]
  have h2 := rcu_forward_shape hrcu tr g hs1 hh hw
  have hdim2 :
      ((m.resConfUnit2.forward tr g (match skip with
        | some s =>
          let q := m.resConfUnit1.forward tr g s
          (tAdd g x q.1, q.2)
        | none => (x, m.resConfUnit1)).1).1).dim 2 = h := by
    rw [Tensor.dim, h2]; rfl
  have hdim3 :
      ((m.resConfUnit2.forward tr g (match skip with
        | some s =>
          let q := m.resConfUnit1.forward tr g s
          (tAdd g x q.1, q.2)
        | none => (x, m.resConfUnit1)).1).1).dim 3 = w := by
    rw [Tensor.dim, h2]; rfl
  rw [conv2d_shape g m.out_conv (t := interpolate g m.align_corners _ _ _)
    (by simp only [interpolate_shape, Tensor.dim, h2]; rfl), hk, hs, hp]
  simp only [List.getD_cons_zero, List.getD_cons_succ]
  rw [convOutDim_1_1_0 hth, convOutDim_1_1_0 htw]

lemma dim_eq {t : Tensor} {s : List Nat} (h : t.shape = s) (i : Nat) :
    t.dim i = s.getD i 1 := by rw [Tensor.dim, h]

lemma ffb_cfg_shape {m : FeatureFusionBlock} {f : Nat} (hcfg : m.cfg f)
    (tr g : Bool) {x : Tensor} (skip : Option Tensor) {b h w : Nat}
    (ht : x.shape = [b, f, h, w]) (hh : 1 ≤ h) (hw : 1 ≤ w)
    (th tw : Nat) (hth : 1 ≤ th) (htw : 1 ≤ tw) :
    (m.forward tr g x skip (some (th, tw))).1.shape = [b, f, th, tw] := by
  obtain ⟨hoc, -, hrcu2, -, -⟩ := hcfg
  have := ffb_forward_shape tr g skip (some (th, tw)) ht hrcu2 hoc.2.2.1
    hoc.2.2.2.1 hoc.2.2.2.2 hh hw (by simp [fusionTarget, hth])
    (by simp [fusionTarget, htw])
  simpa [fusionTarget, hoc.2.1] using this

lemma ffb_cfg_shape_default {m : FeatureFusionBlock} {f : Nat} (hcfg : m.cfg f)
    (tr g : Bool) {x : Tensor} (skip : Option Tensor) {b h w : Nat}
    (ht : x.shape = [b, f, h, w]) (hh : 1 ≤ h) (hw : 1 ≤ w) :
    (m.forward tr g x skip none).1.shape = [b, f, 2 * h, 2 * w] := by
  obtain ⟨hoc, -, hrcu2, hsz, -⟩ := hcfg
  have := ffb_forward_shape tr g skip none ht hrcu2 hoc.2.2.1
    hoc.2.2.2.1 hoc.2.2.2.2 hh hw (by simp [fusionTarget, hsz]; omega)
    (by simp [fusionTarget, hsz]; omega)
  simpa [fusionTarget, hsz, hoc.2.1] using this

lemma tokensToSpatial_shape (g : Bool) (ro : Option LinearParams)
    (e : Tensor × Option Tensor) {B N C : Nat} (he : e.1.shape = [B, N, C])
    (hro : ∀ r ∈ ro, r.outF = C) (ph pw : Nat) :
    (tokensToSpatial g ro e ph pw).shape = [B, C, ph, pw] := by
  rcases hr : ro with _ | r
  · rcases hc : e.2 with _ | cls <;>
      simp [tokensToSpatial, hc, Tensor.dim, he]
  · rcases hc : e.2 with _ | cls
    · simp [tokensToSpatial, hc, Tensor.dim, he]
    · have hout : r.outF = C := hro r (by rw [hr]; rfl)
      simp [tokensToSpatial, hc, Tensor.dim, he, hout, List.dropLast]

lemma scaleOut0_shape {m : DPTHead} {f : Nat} (hcfg : m.cfgStd f) (g : Bool)
    {e : Tensor × Option Tensor} {B N : Nat} (he : e.1.shape = [B, N, 1024])
    {ph pw : Nat} (hph : 1 ≤ ph) (hpw : 1 ≤ pw) :
    (m.scaleOut g 0 e ph pw).shape = [B, 256, 4 * ph, 4 * pw] := by
  obtain ⟨hp1, -, -, -, hrl1, -, -, -, hro⟩ := hcfg
  have hts := tokensToSpatial_shape g (m.readout_projects.map fun r => r.1) e he
    (by
      intro r' hr'
      rcases hR : m.readout_projects with _ | R
      · rw [hR] at hr'; simp at hr'
      · rw [hR] at hr'; simp at hr'; subst hr'
        exact (hro R (Option.mem_def.mpr hR)).1.2) ph pw
  have hc : (conv2d g m.projects_1 (tokensToSpatial g
      (m.readout_projects.map fun r => r.1) e ph pw)).shape =
      [B, 256, ph, pw] := by
    rw [conv2d_shape g m.projects_1 hts, hp1.2.1, hp1.2.2.1, hp1.2.2.2.1,
      hp1.2.2.2.2, convOutDim_1_1_0 hph, convOutDim_1_1_0 hpw]
  rw [DPTHead.scaleOut, convTranspose2d_shape g m.resize_layers_1 hc,
    hrl1.2.1, hrl1.2.2.1, hrl1.2.2.2]
  rw [show (ph - 1) * 4 + 4 = 4 * ph by omega, show (pw - 1) * 4 + 4 = 4 * pw by omega]

lemma scaleOut1_shape {m : DPTHead} {f : Nat} (hcfg : m.cfgStd f) (g : Bool)
    {e : Tensor × Option Tensor} {B N : Nat} (he : e.1.shape = [B, N, 1024])
    {ph pw : Nat} (hph : 1 ≤ ph) (hpw : 1 ≤ pw) :
    (m.scaleOut g 1 e ph pw).shape = [B, 512, 2 * ph, 2 * pw] := by
  obtain ⟨-, hp2, -, -, -, hrl2, -, -, hro⟩ := hcfg
  have hts := tokensToSpatial_shape g (m.readout_projects.map fun r => r.2.1) e he
    (by
      intro r' hr'
      rcases hR : m.readout_projects with _ | R
      · rw [hR] at hr'; simp at hr'
      · rw [hR] at hr'; simp at hr'; subst hr'
        exact (hro R (Option.mem_def.mpr hR)).2.1.2) ph pw
  have hc : (conv2d g m.projects_2 (tokensToSpatial g
      (m.readout_projects.map fun r => r.2.1) e ph pw)).shape =
      [B, 512, ph, pw] := by
    rw [conv2d_shape g m.projects_2 hts, hp2.2.1, hp2.2.2.1, hp2.2.2.2.1,
      hp2.2.2.2.2, convOutDim_1_1_0 hph, convOutDim_1_1_0 hpw]
  rw [DPTHead.scaleOut, convTranspose2d_shape g m.resize_layers_2 hc,
    hrl2.2.1, hrl2.2.2.1, hrl2.2.2.2]
  rw [show (ph - 1) * 2 + 2 = 2 * ph by omega, show (pw - 1) * 2 + 2 = 2 * pw by omega]

lemma scaleOut2_shape {m : DPTHead} {f : Nat} (hcfg : m.cfgStd f) (g : Bool)
    {e : Tensor × Option Tensor} {B N : Nat} (he : e.1.shape = [B, N, 1024])
    {ph pw : Nat} (hph : 1 ≤ ph) (hpw : 1 ≤ pw) :
    (m.scaleOut g 2 e ph pw).shape = [B, 1024, ph, pw] := by
  obtain ⟨-, -, hp3, -, -, -, -, -, hro⟩ := hcfg
  have hts := tokensToSpatial_shape g (m.readout_projects.map fun r => r.2.2.1) e he
    (by
      intro r' hr'
      rcases hR : m.readout_projects with _ | R
      · rw [hR] at hr'; simp at hr'
      · rw [hR] at hr'; simp at hr'; subst hr'
        exact (hro R (Option.mem_def.mpr hR)).2.2.1.2) ph pw
  rw [DPTHead.scaleOut, conv2d_shape g m.projects_3 hts, hp3.2.1, hp3.2.2.1,
    hp3.2.2.2.1, hp3.2.2.2.2, convOutDim_1_1_0 hph, convOutDim_1_1_0 hpw]

lemma scaleOut3_shape {m : DPTHead} {f : Nat} (hcfg : m.cfgStd f) (g : Bool)
    {e : Tensor × Option Tensor} {B N : Nat} (he : e.1.shape = [B, N, 1024])
    {ph pw : Nat} (hph : 1 ≤ ph) (hpw : 1 ≤ pw) :
    (m.scaleOut g 3 e ph pw).shape =
      [B, 1024, convOutDim 3 2 1 ph, convOutDim 3 2 1 pw] := by
  obtain ⟨-, -, -, hp4, -, -, hrl4, -, hro⟩ := hcfg
  have hts := tokensToSpatial_shape g (m.readout_projects.map fun r => r.2.2.2) e he
    (by
      intro r' hr'
      rcases hR : m.readout_projects with _ | R
      · rw [hR] at hr'; simp at hr'
      · rw [hR] at hr'; simp at hr'; subst hr'
        exact (hro R (Option.mem_def.mpr hR)).2.2.2.2) ph pw
  have hc : (conv2d g m.projects_4 (tokensToSpatial g
      (m.readout_projects.map fun r => r.2.2.2) e ph pw)).shape =
      [B, 1024, ph, pw] := by
    rw [conv2d_shape g m.projects_4 hts, hp4.2.1, hp4.2.2.1, hp4.2.2.2.1,
      hp4.2.2.2.2, convOutDim_1_1_0 hph, convOutDim_1_1_0 hpw]
  rw [DPTHead.scaleOut, conv2d_shape g m.resize_layers_4 hc, hrl4.2.1,
    hrl4.2.2.1, hrl4.2.2.2.1, hrl4.2.2.2.2]

lemma convOutDim_3_2_1_pos (n : Nat) : 1 ≤ convOutDim 3 2 1 n := by
  unfold convOutDim; omega

lemma fused_shape {m : DPTHead} {f : Nat} (hsc : m.scratch.cfg f) (tr g : Bool)
    {l1 l2 l3 l4 : Tensor} {B ph pw qh qw : Nat}
    (hl1 : l1.shape = [B, f, 4 * ph, 4 * pw])
    (hl2 : l2.shape = [B, f, 2 * ph, 2 * pw])
    (hl3 : l3.shape = [B, f, ph, pw]) (hl4 : l4.shape = [B, f, qh, qw])
    (hph : 1 ≤ ph) (hpw : 1 ≤ pw) (hqh : 1 ≤ qh) (hqw : 1 ≤ qw) :
    (m.fused tr g l1 l2 l3 l4).1.shape = [B, f, 8 * ph, 8 * pw] := by
  obtain ⟨-, -, -, -, hr1, hr2, hr3, hr4, -, -, -⟩ := hsc
  unfold DPTHead.fused
  simp only [dim_eq hl1, dim_eq hl2, dim_eq hl3, List.getD_cons_zero,
    List.getD_cons_succ]
  have h4 := ffb_cfg_shape hr4 tr g none hl4 hqh hqw ph pw hph hpw
  have h3 := ffb_cfg_shape hr3 tr g (some l3) h4 hph hpw (2 * ph) (2 * pw)
    (by omega) (by omega)
  have h2 := ffb_cfg_shape hr2 tr g (some l2) h3 (by omega) (by omega)
    (4 * ph) (4 * pw) (by omega) (by omega)
  have h1 := ffb_cfg_shape_default hr1 tr g (some l1) h2 (by omega) (by omega)
  rw [h1, show 2 * (4 * ph) = 8 * ph by ring, show 2 * (4 * pw) = 8 * pw by ring]

lemma headOut_shape {m : DPTHead} {f : Nat} (hsc : m.scratch.cfg f) (g : Bool)
    {p1 : Tensor} {B hh ww ph pw : Nat} (hp : p1.shape = [B, f, hh, ww])
    (h1 : 1 ≤ hh) (h2 : 1 ≤ ww) (hph : 1 ≤ ph) (hpw : 1 ≤ pw) :
    (m.headOut g p1 ph pw).shape = [B, 1, 14 * ph, 14 * pw] := by
  obtain ⟨-, -, -, -, -, -, -, -, hoc1, hoc2a, hoc2b⟩ := hsc
  have hc1 : (conv2d g m.scratch.output_conv1 p1).shape = [B, f / 2, hh, ww] := by
    rw [conv2d_shape g m.scratch.output_conv1 hp, hoc1.2.1, hoc1.2.2.1,
      hoc1.2.2.2.1, hoc1.2.2.2.2, convOutDim_3_1_1 h1, convOutDim_3_1_1 h2]
  have hi : (interpolate g true (14 * ph) (14 * pw)
      (conv2d g m.scratch.output_conv1 p1)).shape =
      [B, f / 2, 14 * ph, 14 * pw] := by
    rw [interpolate_shape, dim_eq hc1 0, dim_eq hc1 1]; rfl
  have hc2 : (conv2d g m.scratch.output_conv2a (interpolate g true (14 * ph)
      (14 * pw) (conv2d g m.scratch.output_conv1 p1))).shape =
      [B, 32, 14 * ph, 14 * pw] := by
    rw [conv2d_shape g m.scratch.output_conv2a hi, hoc2a.2.1, hoc2a.2.2.1,
      hoc2a.2.2.2.1, hoc2a.2.2.2.2, convOutDim_3_1_1 (by omega),
      convOutDim_3_1_1 (by omega)]
  have hr : (reluT g (conv2d g m.scratch.output_conv2a (interpolate g true
      (14 * ph) (14 * pw) (conv2d g m.scratch.output_conv1 p1)))).shape =
      [B, 32, 14 * ph, 14 * pw] := by rw [reluT_shape, hc2]
  unfold DPTHead.headOut
  rw [reluT_shape, conv2d_shape g m.scratch.output_conv2b hr, hoc2b.2.1,
    hoc2b.2.2.1, hoc2b.2.2.2.1, hoc2b.2.2.2.2, convOutDim_1_1_0 (by omega),
    convOutDim_1_1_0 (by omega)]

lemma dpt_forward_shape {m : DPTHead} {f : Nat} (hcfg : m.cfgStd f)
    (tr g : Bool) {e1 e2 e3 e4 : Tensor × Option Tensor} {B N1 N2 N3 N4 : Nat}
    (h1 : e1.1.shape = [B, N1, 1024]) (h2 : e2.1.shape = [B, N2, 1024])
    (h3 : e3.1.shape = [B, N3, 1024]) (h4 : e4.1.shape = [B, N4, 1024])
    {ph pw : Nat} (hph : 1 ≤ ph) (hpw : 1 ≤ pw) :
    (m.forward tr g [e1, e2, e3, e4] ph pw).1.shape = [B, 1, 14 * ph, 14 * pw] := by
  have ho1 := scaleOut0_shape hcfg g h1 hph hpw
  have ho2 := scaleOut1_shape hcfg g h2 hph hpw
  have ho3 := scaleOut2_shape hcfg g h3 hph hpw
  have ho4 := scaleOut3_shape hcfg g h4 hph hpw
  have hL : m.scalesList g ph pw 0 [e1, e2, e3, e4] =
      [m.scaleOut g 0 e1 ph pw, m.scaleOut g 1 e2 ph pw,
       m.scaleOut g 2 e3 ph pw, m.scaleOut g 3 e4 ph pw] := by
    simp [DPTHead.scalesList]
  have hsc := hcfg.2.2.2.2.2.2.2.1
  have hrn1 : (conv2d g m.scratch.layer1_rn (m.scaleOut g 0 e1 ph pw)).shape =
      [B, f, 4 * ph, 4 * pw] := by
    rw [conv2d_shape g m.scratch.layer1_rn ho1, hsc.1.2.1, hsc.1.2.2.1,
      hsc.1.2.2.2.1, hsc.1.2.2.2.2, convOutDim_3_1_1 (by omega),
      convOutDim_3_1_1 (by omega)]
  have hrn2 : (conv2d g m.scratch.layer2_rn (m.scaleOut g 1 e2 ph pw)).shape =
      [B, f, 2 * ph, 2 * pw] := by
    rw [conv2d_shape g m.scratch.layer2_rn ho2, hsc.2.1.2.1, hsc.2.1.2.2.1,
      hsc.2.1.2.2.2.1, hsc.2.1.2.2.2.2, convOutDim_3_1_1 (by omega),
      convOutDim_3_1_1 (by omega)]
  have hrn3 : (conv2d g m.scratch.layer3_rn (m.scaleOut g 2 e3 ph pw)).shape =
      [B, f, ph, pw] := by
    rw [conv2d_shape g m.scratch.layer3_rn ho3, hsc.2.2.1.2.1, hsc.2.2.1.2.2.1,
      hsc.2.2.1.2.2.2.1, hsc.2.2.1.2.2.2.2, convOutDim_3_1_1 hph,
      convOutDim_3_1_1 hpw]
  have hrn4 : (conv2d g m.scratch.layer4_rn (m.scaleOut g 3 e4 ph pw)).shape =
      [B, f, convOutDim 3 2 1 ph, convOutDim 3 2 1 pw] := by
    rw [conv2d_shape g m.scratch.layer4_rn ho4, hsc.2.2.2.1.2.1,
      hsc.2.2.2.1.2.2.1, hsc.2.2.2.1.2.2.2.1, hsc.2.2.2.1.2.2.2.2,
      convOutDim_3_1_1 (convOutDim_3_2_1_pos ph),
      convOutDim_3_1_1 (convOutDim_3_2_1_pos pw)]
  have hfz := fused_shape hsc tr g hrn1 hrn2 hrn3 hrn4 hph hpw
    (convOutDim_3_2_1_pos ph) (convOutDim_3_2_1_pos pw)
  have hho := headOut_shape hsc g hfz (by omega) (by omega) hph hpw
  unfold DPTHead.forward DPTHead.layersRn
  rw [hL]
  exact hho

lemma dav2_forward_shape {m : DAv2_Head} {f : Nat}
    (hcfg : m.depth_head.cfgStd f) (tr g : Bool)
    {e1 e2 e3 e4 : Tensor × Option Tensor} {B N1 N2 N3 N4 : Nat}
    (h1 : e1.1.shape = [B, N1, 1024]) (h2 : e2.1.shape = [B, N2, 1024])
    (h3 : e3.1.shape = [B, N3, 1024]) (h4 : e4.1.shape = [B, N4, 1024]) :
    (m.forward tr g [e1, e2, e3, e4]).1.shape = [B, 336, 336] := by
  have hd : (m.depth_head.forward tr g [e1, e2, e3, e4] (336 / 14)
      (336 / 14)).1.shape = [B, 1, 14 * (336 / 14), 14 * (336 / 14)] :=
    dpt_forward_shape hcfg tr g h1 h2 h3 h4 (by norm_num) (by norm_num)
  have hd2 : (m.depth_head.forward tr g [e1, e2, e3, e4] (336 / 14)
      (336 / 14)).1.shape = [B, 1, 336, 336] := by
    rw [hd]
  unfold DAv2_Head.forward
  simp [squeeze1, reluT_shape, hd2]

lemma dav2_forward_nonneg (m : DAv2_Head) (tr g : Bool)
    (features : List (Tensor × Option Tensor)) (i : Nat) :
    0 ≤ ((m.forward tr g features).1).data i := by
  unfold DAv2_Head.forward
  simp only [squeeze1, reluT]
  exact le_max_right _ 0

lemma bn_forward_eval (bn : BatchNorm2d) (g : Bool) (t : Tensor) :
    (bn.forward false g t).2 = bn := by
  simp [BatchNorm2d.forward]

lemma bnOpt_eval (ob : Option BatchNorm2d) (g : Bool) (t : Tensor) :
    (bnOpt ob false g t).2 = ob := by
  cases ob <;> simp [bnOpt, bn_forward_eval]

lemma rcu_forward_eval (u : ResidualConvUnit) (g : Bool) (x : Tensor) :
    (u.forward false g x).2 = u := by
  simp only [ResidualConvUnit.forward]
  rw [bnOpt_eval, bnOpt_eval]

lemma ffb_forward_eval (m : FeatureFusionBlock) (g : Bool) (x : Tensor)
    (skip : Option Tensor) (sizeArg : Option (Nat × Nat)) :
    (m.forward false g x skip sizeArg).2 = m := by
  unfold FeatureFusionBlock.forward
  cases skip <;> simp [rcu_forward_eval]

lemma dpt_forward_eval (m : DPTHead) (g : Bool)
    (feats : List (Tensor × Option Tensor)) (ph pw : Nat) :
    (m.forward false g feats ph pw).2 = m := by
  unfold DPTHead.forward
  split
  · simp only [DPTHead.fused, ffb_forward_eval]
  · rfl

lemma dav2_forward_eval (m : DAv2_Head) (g : Bool)
    (feats : List (Tensor × Option Tensor)) :
    (m.forward false g feats).2 = m := by
  unfold DAv2_Head.forward
  simp [dpt_forward_eval]

lemma infer_feats_eval (m : DAv2_Head) (feats : List (Tensor × Option Tensor))
    (sz : Nat × Nat) : (m.infer_feats false feats sz).2 = m := by
  unfold DAv2_Head.infer_feats
  simp [dav2_forward_eval]

lemma dav2_forward_nograd (m : DAv2_Head) (tr : Bool)
    (feats : List (Tensor × Option Tensor)) :
    ((m.forward tr false feats).1).reqGrad = false := by
  unfold DAv2_Head.forward
  simp [squeeze1, reluT]

/-- Claim C1: for every valid configuration (any fusion width, batch-norm
flag and class-token flag, with the standard channel counts
`[256, 512, 1024, 1024]`) and every batched input of 4 scale entries on the
`(24, 24)` patch grid, the depth head wrapper's forward pass returns a depth
map of shape `(batch, 336, 336)` all of whose values are non-negative (the
output is rectified and the singleton channel axis is dropped). -/
theorem claim1_wrapper_shape_and_nonneg {m : DAv2_Head} {f : Nat}
    (hcfg : m.depth_head.cfgStd f) (tr g : Bool)
    {e1 e2 e3 e4 : Tensor × Option Tensor} {B : Nat}
    (h1 : e1.1.shape = [B, 576, 1024]) (h2 : e2.1.shape = [B, 576, 1024])
    (h3 : e3.1.shape = [B, 576, 1024]) (h4 : e4.1.shape = [B, 576, 1024]) :
    (m.forward tr g [e1, e2, e3, e4]).1.shape = [B, 336, 336] ∧
      ∀ i, 0 ≤ ((m.forward tr g [e1, e2, e3, e4]).1).data i :=
  ⟨dav2_forward_shape hcfg tr g h1 h2 h3 h4,
   fun i => dav2_forward_nonneg m tr g [e1, e2, e3, e4] i⟩

/-- Witness for claim C1 at a concrete batch-norm-enabled model on a
two-element batch. -/
theorem claim1_witness :
    ((zeroDAv2 true).forward true true (zeroFeats 2)).1.shape = [2, 336, 336] ∧
      ∀ i, 0 ≤ (((zeroDAv2 true).forward true true (zeroFeats 2)).1).data i :=
  claim1_wrapper_shape_and_nonneg (zeroDPT_cfgStd 256 true) true true
    rfl rfl rfl rfl

/-- Claim C2: the fusion cascade of the Dense Prediction Transformer head
applies stage 4 to the scale-3 aligned map alone with target size equal to
the scale-2 map's spatial size, stage 3 to stage 4's output with the
scale-2 map as skip and the scale-1 map's size, stage 2 to stage 3's output
with the scale-1 map and the scale-0 map's size, and stage 1 to stage 2's
output with the scale-0 map and no explicit size; the head output is
computed from the cascade result. -/
theorem claim2_fusion_cascade_structure (m : DPTHead) (tr g : Bool)
    (e1 e2 e3 e4 : Tensor × Option Tensor) (ph pw : Nat) :
    (m.forward tr g [e1, e2, e3, e4] ph pw).1 =
      m.headOut g
        (specFusionCascade tr g m.scratch.refinenet4 m.scratch.refinenet3
          m.scratch.refinenet2 m.scratch.refinenet1
          (conv2d g m.scratch.layer1_rn (m.scaleOut g 0 e1 ph pw))
          (conv2d g m.scratch.layer2_rn (m.scaleOut g 1 e2 ph pw))
          (conv2d g m.scratch.layer3_rn (m.scaleOut g 2 e3 ph pw))
          (conv2d g m.scratch.layer4_rn (m.scaleOut g 3 e4 ph pw))) ph pw :=
  rfl

/-- Claim C3: the plain MLP projection variant produces its first and
second output entries by the same first perceptron instance (identical
duplicate outputs) and its fourth output by the third perceptron. -/
theorem claim3_probe_duplicate_first_perceptron (g : Bool)
    (m : DepthProbeHead) (x : Tensor) :
    (m.forward g x)[0]? = some (m.linear_1.apply g x, none) ∧
      (m.forward g x)[1]? = some (m.linear_1.apply g x, none) ∧
      (m.forward g x)[0]? = (m.forward g x)[1]? ∧
      (m.forward g x)[3]? = some (m.linear_3.apply g x, none) :=
  ⟨rfl, rfl, rfl, rfl⟩

/-- Claim C4 (amended): with the model in evaluation mode, the inference
entry point mutates no persistent state — the module returned alongside the
result is the original one, all parameters and running statistics included
— and the wrapped forward pass runs with gradient mode off, so its output
carries no gradient-tracking flag. -/
theorem claim4_no_state_mutation_in_eval (m : DAv2_Head)
    (feats : List (Tensor × Option Tensor)) (h w : Nat) :
    (m.infer_feats false feats (h, w)).2 = m ∧
      ((m.forward false false feats).1).reqGrad = false :=
  ⟨infer_feats_eval m feats (h, w), dav2_forward_nograd m false feats⟩

/-- Projection used to exhibit the state mutation of claim C4's
counterexample: the batch counter of the first batch-norm submodule of the
deepest fusion stage's second residual unit. -/
def bn1Counter (m : DAv2_Head) : Nat :=
  match m.depth_head.scratch.refinenet4.resConfUnit2.bn1 with
  | some b => b.num_batches_tracked
  | none => 0

/-- Counterexample to claim C4 as stated: with batch normalization enabled
and the model in training mode (the state PyTorch modules are constructed
in), a single call to the inference entry point updates the batch-norm
running statistics — `num_batches_tracked` of the deepest fusion stage's
first batch-norm goes from 0 to 1 — because `torch.no_grad()` does not
suppress running-statistics updates. -/
theorem claim4_counterexample :
    ((zeroDAv2 true).infer_feats true (zeroFeats 1) (336, 336)).2 ≠
      zeroDAv2 true := by
  intro hEq
  have h1 : bn1Counter
      (((zeroDAv2 true).infer_feats true (zeroFeats 1) (336, 336)).2) = 1 := rfl
  rw [hEq] at h1
  have h0 : bn1Counter (zeroDAv2 true) = 0 := rfl
  rw [h0] at h1
  exact absurd h1 (by decide)

/-- Claim C5: the inference entry point returns a plain numeric array whose
shape is exactly the requested `(H, W)`, for every input and every
requested size, independently of the internal patch grid. -/
theorem claim5_infer_resolution_roundtrip (m : DAv2_Head) (tr : Bool)
    (feats : List (Tensor × Option Tensor)) (h w : Nat) :
    ((m.infer_feats tr feats (h, w)).1).1 = [h, w] :=
  rfl

/-- Claim C6: the feature fusion block's resize target follows the
precedence "explicit size argument, else constructed size, else double the
input's spatial extent", and in particular with no explicit size and no
constructed size the output spatial dimensions are exactly double the
input's. -/
theorem claim6_fusion_resize_precedence {m : FeatureFusionBlock} {f : Nat}
    (tr g : Bool) {x : Tensor} (skip : Option Tensor)
    (sizeArg : Option (Nat × Nat)) {b h w : Nat}
    (ht : x.shape = [b, f, h, w]) (hrcu : m.resConfUnit2.cfg f)
    (hk : m.out_conv.kernel = 1) (hs : m.out_conv.stride = 1)
    (hp : m.out_conv.padding = 0) (hh : 1 ≤ h) (hw : 1 ≤ w)
    (hth : 1 ≤ (fusionTarget m sizeArg h w).1)
    (htw : 1 ≤ (fusionTarget m sizeArg h w).2) :
    (m.forward tr g x skip sizeArg).1.shape =
      [b, m.out_conv.outC, (fusionTarget m sizeArg h w).1,
        (fusionTarget m sizeArg h w).2] ∧
      (sizeArg = none → m.size = none →
        (m.forward tr g x skip sizeArg).1.shape =
          [b, m.out_conv.outC, 2 * h, 2 * w]) := by
  have h0 := ffb_forward_shape tr g skip sizeArg ht hrcu hk hs hp hh hw hth htw
  refine ⟨h0, fun hsa hms => ?_⟩
  rw [h0]
  simp [fusionTarget, hsa, hms]

/-- Concrete test tensor for the fusion-block witness. -/
def t6 : Tensor := ⟨[1, 3, 5, 7], fun _ => 0, false⟩

/-- Witness for claim C6: a concrete block with no constructed size and no
size argument doubles a 5x7 input to 10x14. -/
theorem claim6_witness :
    ((zeroFFB 3 false).forward false false t6 none none).1.shape =
      [1, 3, 10, 14] := by
  have h := claim6_fusion_resize_precedence (m := zeroFFB 3 false) false false
    none none (rfl : t6.shape = [1, 3, 5, 7])
    (by simp [zeroFFB, zeroRCU, ResidualConvUnit.cfg, Conv2dParams.cfg, zeroConv])
    rfl rfl rfl (by decide) (by decide) (by decide) (by decide)
  exact h.2 rfl rfl

/-- Claim C7: the resampler-based projection variant returns, with
use-intermediate-depth enabled, exactly the three auxiliary MLP outputs
followed by the primary resampled output, each paired with `none`; with it
disabled it returns exactly the primary resampled output. -/
theorem claim7_resampler_variant_entries (g : Bool) (m : DepthHead)
    (x : Tensor) :
    (∀ a b c, m.intermediate_mlps = some (a, b, c) →
      m.forward g x =
        [(a.apply g (m.projector x), none), (b.apply g (m.projector x), none),
         (c.apply g (m.projector x), none), (m.projector x, none)]) ∧
      (m.intermediate_mlps = none → m.forward g x = [(m.projector x, none)]) := by
  constructor
  · intro a b c hsome
    simp [DepthHead.forward, hsome]
  · intro hnone
    simp [DepthHead.forward, hnone]

/-- Concrete zero two-layer perceptron for witnesses. -/
def zMLP : MLP2 := ⟨zeroLinear 4 4, zeroLinear 4 4⟩

/-- Concrete resampler-variant head with auxiliary perceptrons. -/
def dhAux : DepthHead := ⟨fun t => t, some (zMLP, zMLP, zMLP)⟩

/-- Concrete resampler-variant head without auxiliary perceptrons. -/
def dhPlain : DepthHead := ⟨fun t => t, none⟩

/-- Witness for claim C7 at concrete heads. -/
theorem claim7_witness :
    dhAux.forward false t6 =
      [(zMLP.apply false (dhAux.projector t6), none),
       (zMLP.apply false (dhAux.projector t6), none),
       (zMLP.apply false (dhAux.projector t6), none),
       (dhAux.projector t6, none)] ∧
      dhPlain.forward false t6 = [(dhPlain.projector t6, none)] :=
  ⟨(claim7_resampler_variant_entries false dhAux t6).1 zMLP zMLP zMLP rfl,
   (claim7_resampler_variant_entries false dhPlain t6).2 rfl⟩

/-- Claim C8: the plain MLP projection variant on an input of shape
`(B, hidden)`, with every perceptron configured with output dimension `D`,
returns exactly 4 entries, each a feature tensor of shape `(B, D)` paired
with `none`. -/
theorem claim8_probe_output_shapes (g : Bool) (m : DepthProbeHead)
    {x : Tensor} {B hdim D : Nat} (hx : x.shape = [B, hdim])
    (h1 : m.linear_1.fc2.outF = D) (h2 : m.linear_2.fc2.outF = D)
    (h3 : m.linear_3.fc2.outF = D) (h4 : m.linear_4.fc2.outF = D) :
    (m.forward g x).length = 4 ∧
      ∀ p ∈ m.forward g x, p.1.shape = [B, D] ∧ p.2 = none := by
  have hmlp : ∀ mm : MLP2, mm.fc2.outF = D → (mm.apply g x).shape = [B, D] := by
    intro mm hD
    simp [MLP2.apply, hx, List.dropLast, hD]
  refine ⟨rfl, ?_⟩
  intro p hp
  simp only [DepthProbeHead.forward, List.mem_cons, List.not_mem_nil,
    or_false] at hp
  rcases hp with rfl | rfl | rfl | rfl
  · exact ⟨hmlp m.linear_1 h1, rfl⟩
  · exact ⟨hmlp m.linear_1 h1, rfl⟩
  · exact ⟨hmlp m.linear_2 h2, rfl⟩
  · exact ⟨hmlp m.linear_3 h3, rfl⟩

/-- Concrete probe head for the claim C8 witness. -/
def zProbe : DepthProbeHead :=
  ⟨⟨zeroLinear 8 5, zeroLinear 5 5⟩, ⟨zeroLinear 8 5, zeroLinear 5 5⟩,
   ⟨zeroLinear 8 5, zeroLinear 5 5⟩, ⟨zeroLinear 8 5, zeroLinear 5 5⟩⟩

/-- Concrete language-feature input for the claim C8 witness. -/
def t8 : Tensor := ⟨[2, 8], fun _ => 0, false⟩

/-- Witness for claim C8 at a concrete probe head. -/
theorem claim8_witness :
    (zProbe.forward false t8).length = 4 ∧
      ∀ p ∈ zProbe.forward false t8, p.1.shape = [2, 5] ∧ p.2 = none :=
  claim8_probe_output_shapes false zProbe rfl rfl rfl rfl rfl

lemma unsqueeze1_shape {t : Tensor} {B X Y : Nat} (h : t.shape = [B, X, Y]) :
    (unsqueeze1 t).shape = [B, 1, X, Y] := by
  simp [unsqueeze1, h]

lemma interp_first_batch {d1 d2 : Tensor} {B1 B2 : Nat} (h w : Nat)
    (hs1 : d1.shape = [B1, 336, 336]) (hs2 : d2.shape = [B2, 336, 336])
    (hagree : ∀ j < 336 * 336, d1.data j = d2.data j)
    {j : Nat} (hj : j < h * w) :
    (interpolate false true h w (unsqueeze1 d1)).data j =
      (interpolate false true h w (unsqueeze1 d2)).data j := by
  have e1 := unsqueeze1_shape hs1
  have e2 := unsqueeze1_shape hs2
  have hagree4 : ∀ y x : Nat, y ≤ 335 → x ≤ 335 →
      (unsqueeze1 d1).at4 0 0 y x = (unsqueeze1 d2).at4 0 0 y x := by
    intro y x hy hx
    simp only [Tensor.at4, dim_eq e1, dim_eq e2, List.getD_cons_zero,
      List.getD_cons_succ]
    show d1.data _ = d2.data _
    exact hagree _ (by omega)
  have hj' : j < w * h := by rw [Nat.mul_comm]; exact hj
  simp only [interpolate, dim_eq e1, dim_eq e2, List.getD_cons_zero,
    List.getD_cons_succ, mul_one, Nat.mod_one, Nat.div_eq_of_lt hj']
  rw [hagree4 _ _ (min_le_right _ _) (min_le_right _ _),
    hagree4 _ _ (min_le_right _ _) (min_le_right _ _),
    hagree4 _ _ (min_le_right _ _) (min_le_right _ _),
    hagree4 _ _ (min_le_right _ _) (min_le_right _ _)]

/-- Claim C10: the inference entry point returns only the first batch
element's depth map, as a two-dimensional `(H, W)` array; the depth maps of
the other batch elements are discarded and have no effect on the returned
value — two calls whose internal depth maps agree on the first batch
element return identical arrays. -/
theorem claim10_only_first_batch_element (m : DAv2_Head) (tr : Bool)
    (feats1 feats2 : List (Tensor × Option Tensor)) (h w : Nat) {B1 B2 : Nat}
    (hB : 1 < B1)
    (hs1 : ((m.forward tr false feats1).1).shape = [B1, 336, 336])
    (hs2 : ((m.forward tr false feats2).1).shape = [B2, 336, 336])
    (hagree : ∀ j < 336 * 336,
      ((m.forward tr false feats1).1).data j =
        ((m.forward tr false feats2).1).data j) :
    ((m.infer_feats tr feats1 (h, w)).1).1 = [h, w] ∧
      (m.infer_feats tr feats1 (h, w)).1 = (m.infer_feats tr feats2 (h, w)).1 := by
  refine ⟨rfl, ?_⟩
  refine Prod.ext rfl ?_
  funext j
  show (if j < h * (w * 1) then
      (interpolate false true h w (unsqueeze1 (m.forward tr false feats1).1)).data j
    else 0) =
    (if j < h * (w * 1) then
      (interpolate false true h w (unsqueeze1 (m.forward tr false feats2).1)).data j
    else 0)
  by_cases hj : j < h * (w * 1)
  · rw [if_pos hj, if_pos hj]
    exact interp_first_batch h w hs1 hs2 hagree (by rw [Nat.mul_one] at hj; exact hj)
  · rw [if_neg hj, if_neg hj]

/-- Witness for claim C10 at a concrete model on a two-element batch. -/
theorem claim10_witness :
    (((zeroDAv2 false).infer_feats false (zeroFeats 2) (100, 50)).1).1 =
      [100, 50] ∧
      ((zeroDAv2 false).infer_feats false (zeroFeats 2) (100, 50)).1 =
        ((zeroDAv2 false).infer_feats false (zeroFeats 2) (100, 50)).1 :=
  claim10_only_first_batch_element (zeroDAv2 false) false (zeroFeats 2)
    (zeroFeats 2) 100 50 (by decide)
    (dav2_forward_shape (zeroDPT_cfgStd 256 false) false false rfl rfl rfl rfl)
    (dav2_forward_shape (zeroDPT_cfgStd 256 false) false false rfl rfl rfl rfl)
    (fun _ _ => rfl)

lemma conv2dE_eq_cfg {p : Conv2dParams} {ic oc k s pd : Nat}
    (hp : p.cfg ic oc k s pd) (g : Bool) {t : Tensor} {b h w : Nat}
    (ht : t.shape = [b, ic, h, w]) (hk1 : k ≤ h + 2 * pd)
    (hk2 : k ≤ w + 2 * pd) :
    conv2dE g p t = some (conv2d g p t) ∧
      (conv2d g p t).shape = [b, oc, convOutDim k s pd h, convOutDim k s pd w] := by
  obtain ⟨hi, ho, hk, hs, hpd⟩ := hp
  constructor
  · unfold conv2dE
    rw [if_pos]
    refine ⟨by rw [ht]; rfl, by simp [Tensor.dim, ht, hi], ?_, ?_⟩
    · simp only [dim_eq ht, List.getD_cons_succ, List.getD_cons_zero, hk, hpd]
      exact hk1
    · simp only [dim_eq ht, List.getD_cons_succ, List.getD_cons_zero, hk, hpd]
      exact hk2
  · rw [conv2d_shape g p ht, ho, hk, hs, hpd]

lemma convTranspose2dE_eq_cfg {p : ConvTranspose2dParams} {ic oc k s : Nat}
    (hp : p.cfg ic oc k s) (g : Bool) {t : Tensor} {b h w : Nat}
    (ht : t.shape = [b, ic, h, w]) (hh : 1 ≤ h) (hw : 1 ≤ w) :
    convTranspose2dE g p t = some (convTranspose2d g p t) ∧
      (convTranspose2d g p t).shape = [b, oc, (h - 1) * s + k, (w - 1) * s + k] := by
  obtain ⟨hi, ho, hk, hs⟩ := hp
  constructor
  · unfold convTranspose2dE
    rw [if_pos]
    refine ⟨by rw [ht]; rfl, by simp [Tensor.dim, ht, hi], ?_, ?_⟩
    · simp only [dim_eq ht, List.getD_cons_succ, List.getD_cons_zero]
      exact hh
    · simp only [dim_eq ht, List.getD_cons_succ, List.getD_cons_zero]
      exact hw
  · rw [convTranspose2d_shape g p ht, ho, hk, hs]

lemma bnE_eq (bn : BatchNorm2d) (g : Bool) {t : Tensor} {b h w : Nat}
    (ht : t.shape = [b, bn.num_features, h, w]) :
    bn.forwardE false g t = some (bn.forward false g t).1 := by
  unfold BatchNorm2d.forwardE
  rw [if_pos]
  exact ⟨by rw [ht]; rfl, by simp [Tensor.dim, ht], by intro h; cases h⟩

lemma interpolateE_eq (g ac : Bool) (oh ow : Nat) {t : Tensor}
    {b c h w : Nat} (ht : t.shape = [b, c, h, w]) (ho : 1 ≤ oh)
    (hw : 1 ≤ ow) :
    interpolateE g ac oh ow t = some (interpolate g ac oh ow t) := by
  unfold interpolateE
  rw [if_pos]
  exact ⟨by rw [ht]; rfl, ho, hw⟩

lemma tAddE_eq (g : Bool) {a b : Tensor} (h : a.shape = b.shape) :
    tAddE g a b = some (tAdd g a b) := by
  unfold tAddE
  rw [if_pos h]

lemma rcuE_eq {u : ResidualConvUnit} {f : Nat} (hcfg : u.cfg f) (g : Bool)
    {x : Tensor} {b h w : Nat} (hx : x.shape = [b, f, h, w]) (hh : 1 ≤ h)
    (hw : 1 ≤ w) :
    u.forwardE false g x = some (u.forward false g x).1 := by
  obtain ⟨hc1, hc2, hb1f, hb2f⟩ := hcfg
  have hm : (mapAct g u.activation x).shape = [b, f, h, w] := by simp [hx]
  have hcv1 := conv2dE_eq_cfg hc1 g hm (by omega) (by omega)
  have hcv1s : (conv2d g u.conv1 (mapAct g u.activation x)).shape =
      [b, f, h, w] := by
    rw [hcv1.2, convOutDim_3_1_1 hh, convOutDim_3_1_1 hw]
  have hbn1 : bnOptE u.bn1 false g (conv2d g u.conv1 (mapAct g u.activation x)) =
      some (bnOpt u.bn1 false g (conv2d g u.conv1 (mapAct g u.activation x))).1 := by
    rcases hb1 : u.bn1 with _ | b1
    · rfl
    · exact bnE_eq b1 g (by rw [hcv1s, hb1f b1 (Option.mem_def.mpr hb1)])
  have hsh1 : ((bnOpt u.bn1 false g (conv2d g u.conv1
      (mapAct g u.activation x))).1).shape = [b, f, h, w] := by
    rw [bnOpt_fst_shape, hcv1s]
  have hm2 : (mapAct g u.activation (bnOpt u.bn1 false g (conv2d g u.conv1
      (mapAct g u.activation x))).1).shape = [b, f, h, w] := by simp [hsh1]
  have hcv2 := conv2dE_eq_cfg hc2 g hm2 (by omega) (by omega)
  have hcv2s : (conv2d g u.conv2 (mapAct g u.activation (bnOpt u.bn1 false g
      (conv2d g u.conv1 (mapAct g u.activation x))).1)).shape =
      [b, f, h, w] := by
    rw [hcv2.2, convOutDim_3_1_1 hh, convOutDim_3_1_1 hw]
  have hbn2 : bnOptE u.bn2 false g (conv2d g u.conv2 (mapAct g u.activation
      (bnOpt u.bn1 false g (conv2d g u.conv1 (mapAct g u.activation x))).1)) =
      some (bnOpt u.bn2 false g (conv2d g u.conv2 (mapAct g u.activation
        (bnOpt u.bn1 false g (conv2d g u.conv1 (mapAct g u.activation x))).1))).1 := by
    rcases hb2 : u.bn2 with _ | b2
    · rfl
    · exact bnE_eq b2 g (by rw [hcv2s, hb2f b2 (Option.mem_def.mpr hb2)])
  have hsh2 : ((bnOpt u.bn2 false g (conv2d g u.conv2 (mapAct g u.activation
      (bnOpt u.bn1 false g (conv2d g u.conv1
        (mapAct g u.activation x))).1))).1).shape = [b, f, h, w] := by
    rw [bnOpt_fst_shape, hcv2s]
  have hadd := tAddE_eq g (a := (bnOpt u.bn2 false g (conv2d g u.conv2
      (mapAct g u.activation (bnOpt u.bn1 false g (conv2d g u.conv1
        (mapAct g u.activation x))).1))).1) (b := x) (by rw [hsh2, hx])
  simp only [ResidualConvUnit.forwardE, ResidualConvUnit.forward, hcv1.1,
    Option.bind_eq_bind, Option.some_bind, hbn1, hcv2.1, hbn2, hadd]

lemma ffbE_eq {m : FeatureFusionBlock} {f : Nat} (hcfg : m.cfg f) (g : Bool)
    {x : Tensor} {b h w : Nat} (hx : x.shape = [b, f, h, w]) (hh : 1 ≤ h)
    (hw : 1 ≤ w) (skip : Option Tensor)
    (hskip : ∀ s ∈ skip, s.shape = [b, f, h, w]) (sizeArg : Option (Nat × Nat))
    (hth : 1 ≤ (fusionTarget m sizeArg h w).1)
    (htw : 1 ≤ (fusionTarget m sizeArg h w).2) :
    m.forwardE false g x skip sizeArg =
      some (m.forward false g x skip sizeArg).1 := by
  obtain ⟨hoc, hr1, hr2, -, -⟩ := hcfg
  rcases hsk : skip with _ | s
  · have hs2 : ((m.resConfUnit2.forward false g x).1).shape = [b, f, h, w] :=
      rcu_forward_shape hr2 false g hx hh hw
    have hint := interpolateE_eq g m.align_corners
      (fusionTarget m sizeArg h w).1 (fusionTarget m sizeArg h w).2 hs2 hth htw
    have hconv := conv2dE_eq_cfg hoc g (t := interpolate g m.align_corners
        (fusionTarget m sizeArg h w).1 (fusionTarget m sizeArg h w).2
        (m.resConfUnit2.forward false g x).1)
      (by rw [interpolate_shape, dim_eq hs2 0, dim_eq hs2 1]; rfl)
      (by omega) (by omega)
    simp only [FeatureFusionBlock.forwardE, FeatureFusionBlock.forward,
      Option.bind_eq_bind, Option.some_bind, rcuE_eq hr2 g hx hh hw,
      dim_eq hs2, List.getD_cons_succ, List.getD_cons_zero, hint, hconv.1]
  · have hss : s.shape = [b, f, h, w] := hskip s (Option.mem_def.mpr hsk)
    have hres : ((m.resConfUnit1.forward false g s).1).shape = [b, f, h, w] :=
      rcu_forward_shape hr1 false g hss hh hw
    have haddE := tAddE_eq g (a := x) (b := (m.resConfUnit1.forward false g s).1)
      (by rw [hx, hres])
    have hx' : (tAdd g x (m.resConfUnit1.forward false g s).1).shape =
        [b, f, h, w] := by rw [tAdd_shape, hx]
    have hs2 : ((m.resConfUnit2.forward false g
        (tAdd g x (m.resConfUnit1.forward false g s).1)).1).shape =
        [b, f, h, w] := rcu_forward_shape hr2 false g hx' hh hw
    have hint := interpolateE_eq g m.align_corners
      (fusionTarget m sizeArg h w).1 (fusionTarget m sizeArg h w).2 hs2 hth htw
    have hconv := conv2dE_eq_cfg hoc g (t := interpolate g m.align_corners
        (fusionTarget m sizeArg h w).1 (fusionTarget m sizeArg h w).2
        (m.resConfUnit2.forward false g
          (tAdd g x (m.resConfUnit1.forward false g s).1)).1)
      (by rw [interpolate_shape, dim_eq hs2 0, dim_eq hs2 1]; rfl)
      (by omega) (by omega)
    simp only [FeatureFusionBlock.forwardE, FeatureFusionBlock.forward,
      Option.bind_eq_bind, Option.some_bind, rcuE_eq hr1 g hss hh hw, haddE,
      rcuE_eq hr2 g hx' hh hw, dim_eq hs2, List.getD_cons_succ,
      List.getD_cons_zero, hint, hconv.1]

lemma ttsE_noro_split (g : Bool) (e : Tensor × Option Tensor) (ph pw : Nat)
    {B N C : Nat} (he : e.1.shape = [B, N, C]) :
    tokensToSpatialE g none e ph pw =
      if B * (C * (N * 1)) = B * (C * (ph * (pw * 1)))
      then some (tokensToSpatial g none e ph pw) else none := by
  unfold tokensToSpatialE tokensToSpatial permute021E reshapeE
  simp only [Option.bind_eq_bind, Option.some_bind]
  rw [if_pos (by rw [he]; rfl)]
  simp only [Option.some_bind, Tensor.numel, permute021_shape, reshapeT_shape,
    dim_eq he, List.getD_cons_zero, List.getD_cons_succ, List.prod_cons,
    List.prod_nil]

lemma ttsE_eq_noro (g : Bool) (e : Tensor × Option Tensor) {B N C : Nat}
    (he : e.1.shape = [B, N, C]) (ph pw : Nat) (htok : N = ph * pw) :
    tokensToSpatialE g none e ph pw = some (tokensToSpatial g none e ph pw) := by
  rw [ttsE_noro_split g e ph pw he, if_pos (by subst htok; ring_nf)]

lemma scaleFrontE_cases {p : Conv2dParams} {oc : Nat}
    (hp : p.cfg 1024 oc 1 1 0) (g : Bool) (e : Tensor × Option Tensor)
    {B N C ph pw : Nat} (he : e.1.shape = [B, N, C]) (hB : 1 ≤ B)
    (hbad : ¬(N = ph * pw ∧ C = 1024 ∧ 1 ≤ ph ∧ 1 ≤ pw)) :
    tokensToSpatialE g none e ph pw = none ∨
      (tokensToSpatialE g none e ph pw =
          some (tokensToSpatial g none e ph pw) ∧
        conv2dE g p (tokensToSpatial g none e ph pw) = none) := by
  rw [ttsE_noro_split g e ph pw he]
  by_cases hnum : B * (C * (N * 1)) = B * (C * (ph * (pw * 1)))
  · right
    rw [if_pos hnum]
    refine ⟨rfl, ?_⟩
    have hts : (tokensToSpatial g none e ph pw).shape = [B, C, ph, pw] :=
      tokensToSpatial_shape g none e he (by simp) ph pw
    unfold conv2dE
    rw [if_neg]
    rintro ⟨-, hchan, hk1, hk2⟩
    apply hbad
    rw [dim_eq hts 1] at hchan
    rw [dim_eq hts 2] at hk1
    rw [dim_eq hts 3] at hk2
    have hC : C = 1024 := by simpa [hp.1] using hchan
    have hph : 1 ≤ ph := by
      have := hk1
      simp only [hp.2.2.1, hp.2.2.2.2, List.getD_cons_succ,
        List.getD_cons_zero] at this
      omega
    have hpw : 1 ≤ pw := by
      have := hk2
      simp only [hp.2.2.1, hp.2.2.2.2, List.getD_cons_succ,
        List.getD_cons_zero] at this
      omega
    subst hC
    have hN : N = ph * pw := by
      have h1 : (1024 : Nat) * (N * 1) = 1024 * (ph * (pw * 1)) :=
        Nat.eq_of_mul_eq_mul_left (show 0 < B by omega) hnum
      have h2 : N * 1 = ph * (pw * 1) :=
        Nat.eq_of_mul_eq_mul_left (show (0 : Nat) < 1024 by omega) h1
      simpa using h2
    exact ⟨hN, rfl, hph, hpw⟩
  · left
    rw [if_neg hnum]

lemma scaleOutE_none {m : DPTHead} {f : Nat} (hcfg : m.cfgStd f)
    (hro : m.readout_projects = none) (g : Bool) {i : Nat} (hi : i < 4)
    (e : Tensor × Option Tensor) {B N C ph pw : Nat}
    (he : e.1.shape = [B, N, C]) (hB : 1 ≤ B)
    (hbad : ¬(N = ph * pw ∧ C = 1024 ∧ 1 ≤ ph ∧ 1 ≤ pw)) :
    m.scaleOutE g i e ph pw = none := by
  obtain ⟨hp1, hp2, hp3, hp4, -, -, -, -, -⟩ := hcfg
  interval_cases i
  · rcases scaleFrontE_cases hp1 g e he hB hbad with hn | ⟨hs, hc⟩
    · simp [DPTHead.scaleOutE, hro, hn]
    · simp [DPTHead.scaleOutE, hro, hs, hc]
  · rcases scaleFrontE_cases hp2 g e he hB hbad with hn | ⟨hs, hc⟩
    · simp [DPTHead.scaleOutE, hro, hn]
    · simp [DPTHead.scaleOutE, hro, hs, hc]
  · rcases scaleFrontE_cases hp3 g e he hB hbad with hn | ⟨hs, hc⟩
    · simp [DPTHead.scaleOutE, hro, hn]
    · simp [DPTHead.scaleOutE, hro, hs, hc]
  · rcases scaleFrontE_cases hp4 g e he hB hbad with hn | ⟨hs, hc⟩
    · simp [DPTHead.scaleOutE, hro, hn]
    · simp [DPTHead.scaleOutE, hro, hs, hc]

lemma scaleOut0E_eq {m : DPTHead} {f : Nat} (hcfg : m.cfgStd f)
    (hro : m.readout_projects = none) (g : Bool)
    {e : Tensor × Option Tensor} {B ph pw : Nat}
    (he : e.1.shape = [B, ph * pw, 1024]) (hph : 1 ≤ ph) (hpw : 1 ≤ pw) :
    m.scaleOutE g 0 e ph pw = some (m.scaleOut g 0 e ph pw) := by
  obtain ⟨hp1, -, -, -, hrl1, -, -, -, -⟩ := hcfg
  have hts : (tokensToSpatial g none e ph pw).shape = [B, 1024, ph, pw] :=
    tokensToSpatial_shape g none e he (by simp) ph pw
  have hcv := conv2dE_eq_cfg hp1 g hts (by omega) (by omega)
  have hcvs : (conv2d g m.projects_1 (tokensToSpatial g none e ph pw)).shape =
      [B, 256, ph, pw] := by
    rw [hcv.2, convOutDim_1_1_0 hph, convOutDim_1_1_0 hpw]
  have hct := convTranspose2dE_eq_cfg hrl1 g hcvs hph hpw
  simp only [DPTHead.scaleOutE, DPTHead.scaleOut, hro, Option.map,
    ttsE_eq_noro g e he ph pw rfl, Option.bind_eq_bind, Option.some_bind,
    hcv.1, hct.1]

lemma scaleOut1E_eq {m : DPTHead} {f : Nat} (hcfg : m.cfgStd f)
    (hro : m.readout_projects = none) (g : Bool)
    {e : Tensor × Option Tensor} {B ph pw : Nat}
    (he : e.1.shape = [B, ph * pw, 1024]) (hph : 1 ≤ ph) (hpw : 1 ≤ pw) :
    m.scaleOutE g 1 e ph pw = some (m.scaleOut g 1 e ph pw) := by
  obtain ⟨-, hp2, -, -, -, hrl2, -, -, -⟩ := hcfg
  have hts : (tokensToSpatial g none e ph pw).shape = [B, 1024, ph, pw] :=
    tokensToSpatial_shape g none e he (by simp) ph pw
  have hcv := conv2dE_eq_cfg hp2 g hts (by omega) (by omega)
  have hcvs : (conv2d g m.projects_2 (tokensToSpatial g none e ph pw)).shape =
      [B, 512, ph, pw] := by
    rw [hcv.2, convOutDim_1_1_0 hph, convOutDim_1_1_0 hpw]
  have hct := convTranspose2dE_eq_cfg hrl2 g hcvs hph hpw
  simp only [DPTHead.scaleOutE, DPTHead.scaleOut, hro, Option.map,
    ttsE_eq_noro g e he ph pw rfl, Option.bind_eq_bind, Option.some_bind,
    hcv.1, hct.1]

lemma scaleOut2E_eq {m : DPTHead} {f : Nat} (hcfg : m.cfgStd f)
    (hro : m.readout_projects = none) (g : Bool)
    {e : Tensor × Option Tensor} {B ph pw : Nat}
    (he : e.1.shape = [B, ph * pw, 1024]) (hph : 1 ≤ ph) (hpw : 1 ≤ pw) :
    m.scaleOutE g 2 e ph pw = some (m.scaleOut g 2 e ph pw) := by
  obtain ⟨-, -, hp3, -, -, -, -, -, -⟩ := hcfg
  have hts : (tokensToSpatial g none e ph pw).shape = [B, 1024, ph, pw] :=
    tokensToSpatial_shape g none e he (by simp) ph pw
  have hcv := conv2dE_eq_cfg hp3 g hts (by omega) (by omega)
  simp only [DPTHead.scaleOutE, DPTHead.scaleOut, hro, Option.map,
    ttsE_eq_noro g e he ph pw rfl, Option.bind_eq_bind, Option.some_bind,
    hcv.1]

lemma scaleOut3E_eq {m : DPTHead} {f : Nat} (hcfg : m.cfgStd f)
    (hro : m.readout_projects = none) (g : Bool)
    {e : Tensor × Option Tensor} {B ph pw : Nat}
    (he : e.1.shape = [B, ph * pw, 1024]) (hph : 1 ≤ ph) (hpw : 1 ≤ pw) :
    m.scaleOutE g 3 e ph pw = some (m.scaleOut g 3 e ph pw) := by
  obtain ⟨-, -, -, hp4, -, -, hrl4, -, -⟩ := hcfg
  have hts : (tokensToSpatial g none e ph pw).shape = [B, 1024, ph, pw] :=
    tokensToSpatial_shape g none e he (by simp) ph pw
  have hcv := conv2dE_eq_cfg hp4 g hts (by omega) (by omega)
  have hcvs : (conv2d g m.projects_4 (tokensToSpatial g none e ph pw)).shape =
      [B, 1024, ph, pw] := by
    rw [hcv.2, convOutDim_1_1_0 hph, convOutDim_1_1_0 hpw]
  have hcv2 := conv2dE_eq_cfg hrl4 g hcvs (by omega) (by omega)
  simp only [DPTHead.scaleOutE, DPTHead.scaleOut, hro, Option.map,
    ttsE_eq_noro g e he ph pw rfl, Option.bind_eq_bind, Option.some_bind,
    hcv.1, hcv2.1]

lemma interpolate_shape_of (g ac : Bool) (oh ow : Nat) {t : Tensor}
    {b c h w : Nat} (ht : t.shape = [b, c, h, w]) :
    (interpolate g ac oh ow t).shape = [b, c, oh, ow] := by
  rw [interpolate_shape, dim_eq ht 0, dim_eq ht 1]; rfl

lemma reluT_shape_of (g : Bool) {t : Tensor} {s : List Nat} (ht : t.shape = s) :
    (reluT g t).shape = s := by rw [reluT_shape, ht]

lemma scalesListE_eq4 {m : DPTHead} {f : Nat} (hcfg : m.cfgStd f)
    (hro : m.readout_projects = none) (g : Bool)
    {e1 e2 e3 e4 : Tensor × Option Tensor} {B ph pw : Nat}
    (h1 : e1.1.shape = [B, ph * pw, 1024]) (h2 : e2.1.shape = [B, ph * pw, 1024])
    (h3 : e3.1.shape = [B, ph * pw, 1024]) (h4 : e4.1.shape = [B, ph * pw, 1024])
    (hph : 1 ≤ ph) (hpw : 1 ≤ pw) :
    m.scalesListE g ph pw 0 [e1, e2, e3, e4] =
      some [m.scaleOut g 0 e1 ph pw, m.scaleOut g 1 e2 ph pw,
        m.scaleOut g 2 e3 ph pw, m.scaleOut g 3 e4 ph pw] := by
  simp only [DPTHead.scalesListE, scaleOut0E_eq hcfg hro g h1 hph hpw,
    scaleOut1E_eq hcfg hro g h2 hph hpw, scaleOut2E_eq hcfg hro g h3 hph hpw,
    scaleOut3E_eq hcfg hro g h4 hph hpw, Option.bind_eq_bind, Option.some_bind]

lemma forwardE_eq {m : DPTHead} {f : Nat} (hcfg : m.cfgStd f)
    (hro : m.readout_projects = none) (g : Bool)
    {e1 e2 e3 e4 : Tensor × Option Tensor} {B ph pw : Nat}
    (h1 : e1.1.shape = [B, ph * pw, 1024]) (h2 : e2.1.shape = [B, ph * pw, 1024])
    (h3 : e3.1.shape = [B, ph * pw, 1024]) (h4 : e4.1.shape = [B, ph * pw, 1024])
    (hph : 1 ≤ ph) (hpw : 1 ≤ pw) :
    m.forwardE false g [e1, e2, e3, e4] ph pw =
      some (m.forward false g [e1, e2, e3, e4] ph pw).1 := by
  have ho1 := scaleOut0_shape hcfg g h1 hph hpw
  have ho2 := scaleOut1_shape hcfg g h2 hph hpw
  have ho3 := scaleOut2_shape hcfg g h3 hph hpw
  have ho4 := scaleOut3_shape hcfg g h4 hph hpw
  have hsc := hcfg.2.2.2.2.2.2.2.1
  have hrn1 := conv2dE_eq_cfg hsc.1 g ho1 (by omega) (by omega)
  have hrn1s : (conv2d g m.scratch.layer1_rn (m.scaleOut g 0 e1 ph pw)).shape =
      [B, f, 4 * ph, 4 * pw] := by
    rw [hrn1.2, convOutDim_3_1_1 (by omega), convOutDim_3_1_1 (by omega)]
  have hrn2 := conv2dE_eq_cfg hsc.2.1 g ho2 (by omega) (by omega)
  have hrn2s : (conv2d g m.scratch.layer2_rn (m.scaleOut g 1 e2 ph pw)).shape =
      [B, f, 2 * ph, 2 * pw] := by
    rw [hrn2.2, convOutDim_3_1_1 (by omega), convOutDim_3_1_1 (by omega)]
  have hrn3 := conv2dE_eq_cfg hsc.2.2.1 g ho3 (by omega) (by omega)
  have hrn3s : (conv2d g m.scratch.layer3_rn (m.scaleOut g 2 e3 ph pw)).shape =
      [B, f, ph, pw] := by
    rw [hrn3.2, convOutDim_3_1_1 hph, convOutDim_3_1_1 hpw]
  have hq1 := convOutDim_3_2_1_pos ph
  have hq2 := convOutDim_3_2_1_pos pw
  have hrn4 := conv2dE_eq_cfg hsc.2.2.2.1 g ho4 (by omega) (by omega)
  have hrn4s : (conv2d g m.scratch.layer4_rn (m.scaleOut g 3 e4 ph pw)).shape =
      [B, f, convOutDim 3 2 1 ph, convOutDim 3 2 1 pw] := by
    rw [hrn4.2, convOutDim_3_1_1 hq1, convOutDim_3_1_1 hq2]
  have hr1c := hsc.2.2.2.2.1
  have hr2c := hsc.2.2.2.2.2.1
  have hr3c := hsc.2.2.2.2.2.2.1
  have hr4c := hsc.2.2.2.2.2.2.2.1
  have hff4 := ffbE_eq hr4c g hrn4s hq1 hq2 none (by intro s hs; cases hs)
    (some (ph, pw)) (by simp [fusionTarget]; omega) (by simp [fusionTarget]; omega)
  have hp4s : ((m.scratch.refinenet4.forward false g
      (conv2d g m.scratch.layer4_rn (m.scaleOut g 3 e4 ph pw)) none
      (some (ph, pw))).1).shape = [B, f, ph, pw] :=
    ffb_cfg_shape hr4c false g none hrn4s hq1 hq2 ph pw hph hpw
  have hff3 := ffbE_eq hr3c g hp4s hph hpw
    (some (conv2d g m.scratch.layer3_rn (m.scaleOut g 2 e3 ph pw)))
    (by
      intro s hs
      have hseq := Option.some_inj.mp (Option.mem_def.mp hs)
      rw [← hseq]
      exact hrn3s)
    (some (2 * ph, 2 * pw)) (by simp [fusionTarget]; omega)
    (by simp [fusionTarget]; omega)
  have hp3s : ((m.scratch.refinenet3.forward false g
      ((m.scratch.refinenet4.forward false g
        (conv2d g m.scratch.layer4_rn (m.scaleOut g 3 e4 ph pw)) none
        (some (ph, pw))).1)
      (some (conv2d g m.scratch.layer3_rn (m.scaleOut g 2 e3 ph pw)))
      (some (2 * ph, 2 * pw))).1).shape = [B, f, 2 * ph, 2 * pw] :=
    ffb_cfg_shape hr3c false g _ hp4s hph hpw (2 * ph) (2 * pw)
      (by omega) (by omega)
  have hff2 := ffbE_eq hr2c g hp3s (by omega) (by omega)
    (some (conv2d g m.scratch.layer2_rn (m.scaleOut g 1 e2 ph pw)))
    (by
      intro s hs
      have hseq := Option.some_inj.mp (Option.mem_def.mp hs)
      rw [← hseq]
      exact hrn2s)
    (some (4 * ph, 4 * pw)) (by simp [fusionTarget]; omega)
    (by simp [fusionTarget]; omega)
  have hp2s : ((m.scratch.refinenet2.forward false g
      ((m.scratch.refinenet3.forward false g
        ((m.scratch.refinenet4.forward false g
          (conv2d g m.scratch.layer4_rn (m.scaleOut g 3 e4 ph pw)) none
          (some (ph, pw))).1)
        (some (conv2d g m.scratch.layer3_rn (m.scaleOut g 2 e3 ph pw)))
        (some (2 * ph, 2 * pw))).1)
      (some (conv2d g m.scratch.layer2_rn (m.scaleOut g 1 e2 ph pw)))
      (some (4 * ph, 4 * pw))).1).shape = [B, f, 4 * ph, 4 * pw] :=
    ffb_cfg_shape hr2c false g _ hp3s (by omega) (by omega) (4 * ph) (4 * pw)
      (by omega) (by omega)
  have hff1 := ffbE_eq hr1c g hp2s (by omega) (by omega)
    (some (conv2d g m.scratch.layer1_rn (m.scaleOut g 0 e1 ph pw)))
    (by
      intro s hs
      have hseq := Option.some_inj.mp (Option.mem_def.mp hs)
      rw [← hseq]
      exact hrn1s)
    none (by simp [fusionTarget, hr1c.2.2.2.1]; omega)
    (by simp [fusionTarget, hr1c.2.2.2.1]; omega)
  have hp1s : ((m.scratch.refinenet1.forward false g
      ((m.scratch.refinenet2.forward false g
        ((m.scratch.refinenet3.forward false g
          ((m.scratch.refinenet4.forward false g
            (conv2d g m.scratch.layer4_rn (m.scaleOut g 3 e4 ph pw)) none
            (some (ph, pw))).1)
          (some (conv2d g m.scratch.layer3_rn (m.scaleOut g 2 e3 ph pw)))
          (some (2 * ph, 2 * pw))).1)
        (some (conv2d g m.scratch.layer2_rn (m.scaleOut g 1 e2 ph pw)))
        (some (4 * ph, 4 * pw))).1)
      (some (conv2d g m.scratch.layer1_rn (m.scaleOut g 0 e1 ph pw)))
      none).1).shape = [B, f, 2 * (4 * ph), 2 * (4 * pw)] :=
    ffb_cfg_shape_default hr1c false g _ hp2s (by omega) (by omega)
  have hoc1 := conv2dE_eq_cfg hsc.2.2.2.2.2.2.2.2.1 g hp1s (by omega) (by omega)
  have hoc1s := hoc1.2
  rw [convOutDim_3_1_1 (by omega), convOutDim_3_1_1 (by omega)] at hoc1s
  have hint := interpolateE_eq g true (14 * ph) (14 * pw) hoc1s
    (by omega) (by omega)
  have hints := interpolate_shape_of g true (14 * ph) (14 * pw) hoc1s
  have hoc2a := conv2dE_eq_cfg hsc.2.2.2.2.2.2.2.2.2.1 g hints
    (by omega) (by omega)
  have hoc2as := hoc2a.2
  rw [convOutDim_3_1_1 (by omega), convOutDim_3_1_1 (by omega)] at hoc2as
  have hrel := reluT_shape_of g hoc2as
  have hoc2b := conv2dE_eq_cfg hsc.2.2.2.2.2.2.2.2.2.2 g hrel
    (by omega) (by omega)
  simp only [DPTHead.forwardE, DPTHead.forward, DPTHead.layersRn,
    DPTHead.fused, DPTHead.headOut, DPTHead.scalesList,
    scalesListE_eq4 hcfg hro g h1 h2 h3 h4 hph hpw, Option.bind_eq_bind,
    Option.some_bind, hrn1.1, hrn2.1, hrn3.1, hrn4.1, dim_eq hrn1s,
    dim_eq hrn2s, dim_eq hrn3s, List.getD_cons_zero, List.getD_cons_succ,
    hff4, hff3, hff2, hff1, hoc1.1, hint, hoc2a.1, hoc2b.1]

lemma scalesListE_length {m : DPTHead} {g : Bool} {ph pw : Nat} :
    ∀ (feats : List (Tensor × Option Tensor)) (i : Nat) (l : List Tensor),
      m.scalesListE g ph pw i feats = some l → l.length = feats.length := by
  intro feats
  induction feats with
  | nil =>
    intro i l h
    simp only [DPTHead.scalesListE] at h
    cases h
    rfl
  | cons e rest ih =>
    intro i l h
    simp only [DPTHead.scalesListE, Option.bind_eq_bind] at h
    rcases hx : m.scaleOutE g i e ph pw with _ | t
    · rw [hx] at h; cases h
    · rw [hx] at h
      rcases hy : m.scalesListE g ph pw (i + 1) rest with _ | ts
      · rw [hy] at h; cases h
      · rw [hy] at h
        simp only [Option.some_bind] at h
        cases h
        simp [ih (i + 1) ts hy]

lemma scalesListE_cons_none_head {m : DPTHead} {g : Bool} {ph pw i : Nat}
    {e : Tensor × Option Tensor} {rest : List (Tensor × Option Tensor)}
    (h : m.scaleOutE g i e ph pw = none) :
    m.scalesListE g ph pw i (e :: rest) = none := by
  simp [DPTHead.scalesListE, h]

lemma scalesListE_cons_none_tail {m : DPTHead} {g : Bool} {ph pw i : Nat}
    {e : Tensor × Option Tensor} {rest : List (Tensor × Option Tensor)}
    (h : m.scalesListE g ph pw (i + 1) rest = none) :
    m.scalesListE g ph pw i (e :: rest) = none := by
  cases hx : m.scaleOutE g i e ph pw <;> simp [DPTHead.scalesListE, hx, h]

lemma forwardE_none_of_scales {m : DPTHead} {g : Bool} {ph pw : Nat}
    {feats : List (Tensor × Option Tensor)}
    (h : m.scalesListE g ph pw 0 feats = none) (tr : Bool) :
    m.forwardE tr g feats ph pw = none := by
  simp [DPTHead.forwardE, h]

/-- Claim C9 (amended): in evaluation mode, with a well-formed head at the
standard configuration and class-token fusion off, on a batched input whose
entries are 3-D token tensors sharing a positive batch size, the checked
forward pass fails (produces no output, as the Python code raises) exactly
when the number of scale entries differs from 4, some entry's token count
differs from `patch_h * patch_w`, some entry's embedding width differs from
the configured 1024 input channels, or the patch grid is degenerate
(`patch_h = 0` or `patch_w = 0`); it succeeds for all other such inputs. -/
theorem claim9_forward_failure_characterization {m : DPTHead} {f : Nat}
    (hcfg : m.cfgStd f) (hro : m.readout_projects = none) (g : Bool)
    (feats : List (Tensor × Option Tensor)) {B : Nat} (hB : 1 ≤ B)
    (hent : ∀ e ∈ feats, ∃ N C, e.1.shape = [B, N, C]) (ph pw : Nat) :
    m.forwardE false g feats ph pw = none ↔
      ¬(feats.length = 4 ∧ (∀ e ∈ feats, e.1.shape = [B, ph * pw, 1024]) ∧
        1 ≤ ph ∧ 1 ≤ pw) := by
  constructor
  · intro hnone hcond
    obtain ⟨hlen, hshapes, hph, hpw⟩ := hcond
    rcases feats with _ | ⟨a1, _ | ⟨a2, _ | ⟨a3, _ | ⟨a4, _ | ⟨a5, tl⟩⟩⟩⟩⟩ <;>
        simp only [List.length_cons, List.length_nil] at hlen <;> try omega
    rw [forwardE_eq hcfg hro g (hshapes a1 (by simp)) (hshapes a2 (by simp))
      (hshapes a3 (by simp)) (hshapes a4 (by simp)) hph hpw] at hnone
    cases hnone
  · intro hncond
    by_cases hlen : feats.length = 4
    · rcases feats with _ | ⟨a1, _ | ⟨a2, _ | ⟨a3, _ | ⟨a4, _ | ⟨a5, tl⟩⟩⟩⟩⟩ <;>
        simp only [List.length_cons, List.length_nil] at hlen <;> try omega
      obtain ⟨N1, C1, he1⟩ := hent a1 (by simp)
      obtain ⟨N2, C2, he2⟩ := hent a2 (by simp)
      obtain ⟨N3, C3, he3⟩ := hent a3 (by simp)
      obtain ⟨N4, C4, he4⟩ := hent a4 (by simp)
      by_cases hph : 1 ≤ ph
      · by_cases hpw : 1 ≤ pw
        · have hbadlist : ¬ ∀ e ∈ [a1, a2, a3, a4],
              e.1.shape = [B, ph * pw, 1024] := by
            intro hall
            exact hncond ⟨rfl, hall, hph, hpw⟩
          by_cases hba1 : a1.1.shape = [B, ph * pw, 1024]
          · by_cases hba2 : a2.1.shape = [B, ph * pw, 1024]
            · by_cases hba3 : a3.1.shape = [B, ph * pw, 1024]
              · by_cases hba4 : a4.1.shape = [B, ph * pw, 1024]
                · refine absurd ?_ hbadlist
                  intro e he
                  simp only [List.mem_cons, List.not_mem_nil, or_false] at he
                  rcases he with rfl | rfl | rfl | rfl
                  · exact hba1
                  · exact hba2
                  · exact hba3
                  · exact hba4
                · apply forwardE_none_of_scales
                  apply scalesListE_cons_none_tail
                  apply scalesListE_cons_none_tail
                  apply scalesListE_cons_none_tail
                  apply scalesListE_cons_none_head
                  exact scaleOutE_none hcfg hro g (by omega) a4 he4 hB
                    (by rintro ⟨hx, hy, -, -⟩; exact hba4 (by rw [he4, hx, hy]))
              · apply forwardE_none_of_scales
                apply scalesListE_cons_none_tail
                apply scalesListE_cons_none_tail
                apply scalesListE_cons_none_head
                exact scaleOutE_none hcfg hro g (by omega) a3 he3 hB
                  (by rintro ⟨hx, hy, -, -⟩; exact hba3 (by rw [he3, hx, hy]))
            · apply forwardE_none_of_scales
              apply scalesListE_cons_none_tail
              apply scalesListE_cons_none_head
              exact scaleOutE_none hcfg hro g (by omega) a2 he2 hB
                (by rintro ⟨hx, hy, -, -⟩; exact hba2 (by rw [he2, hx, hy]))
          · apply forwardE_none_of_scales
            apply scalesListE_cons_none_head
            exact scaleOutE_none hcfg hro g (by omega) a1 he1 hB
              (by rintro ⟨hx, hy, -, -⟩; exact hba1 (by rw [he1, hx, hy]))
        · apply forwardE_none_of_scales
          apply scalesListE_cons_none_head
          exact scaleOutE_none hcfg hro g (by omega) a1 he1 hB
            (by rintro ⟨-, -, -, hc⟩; exact hpw hc)
      · apply forwardE_none_of_scales
        apply scalesListE_cons_none_head
        exact scaleOutE_none hcfg hro g (by omega) a1 he1 hB
          (by rintro ⟨-, -, hc, -⟩; exact hph hc)
    · unfold DPTHead.forwardE
      rcases hsl : m.scalesListE g ph pw 0 feats with _ | l
      · simp [hsl]
      · have hl := scalesListE_length feats 0 l hsl
        simp only [hsl, Option.bind_eq_bind, Option.some_bind]
        rcases l with _ | ⟨b1, _ | ⟨b2, _ | ⟨b3, _ | ⟨b4, _ | ⟨b5, tl2⟩⟩⟩⟩⟩
        · rfl
        · rfl
        · rfl
        · rfl
        · exact absurd (by rw [← hl]; rfl) hlen
        · rfl

/-- Concrete four-entry input whose token tensors have embedding width 7
instead of the configured 1024 input channels. -/
def feats7 : List (Tensor × Option Tensor) :=
  [(⟨[1, 576, 7], fun _ => 0, false⟩, none), (⟨[1, 576, 7], fun _ => 0, false⟩, none),
   (⟨[1, 576, 7], fun _ => 0, false⟩, none), (⟨[1, 576, 7], fun _ => 0, false⟩, none)]

/-- Counterexample to claim C9 as stated: an input with exactly 4 scale
entries whose token count equals `patch_h * patch_w = 576` nevertheless
makes the forward pass raise, because the entries' embedding width (7) does
not match the projection convolutions' 1024 input channels — so the two
conditions named by the claim do not characterize success. -/
theorem claim9_counterexample :
    (zeroDPT 256 false).forwardE false false feats7 24 24 = none ∧
      feats7.length = 4 ∧ ∀ e ∈ feats7, e.1.dim 1 = 24 * 24 := by
  refine ⟨rfl, rfl, ?_⟩
  intro e he
  simp only [feats7, List.mem_cons, List.not_mem_nil, or_false] at he
  rcases he with rfl | rfl | rfl | rfl <;> rfl

/-- Witness for claim C9 at a concrete head and input. -/
theorem claim9_witness :
    ((zeroDPT 256 false).forwardE false false (zeroFeats 1) 24 24 = none ↔
      ¬((zeroFeats 1).length = 4 ∧
        (∀ e ∈ zeroFeats 1, e.1.shape = [1, 24 * 24, 1024]) ∧
        1 ≤ 24 ∧ 1 ≤ 24)) :=
  claim9_forward_failure_characterization (zeroDPT_cfgStd 256 false) rfl false
    (zeroFeats 1) (by decide)
    (by
      intro e he
      simp only [zeroFeats, zeroEntry, List.mem_cons, List.not_mem_nil,
        or_false] at he
      rcases he with rfl | rfl | rfl | rfl <;> exact ⟨576, 1024, rfl⟩) 24 24

end










